import Mathlib

/-!
# Ledger & Balance Consistency Engine — shallow embedding

A shallow embedding of the money-movement core of the banking backend:
the `createTransaction` movement executor (controllers/transactionController.mjs),
its `createTransfer` / `createWithdrawal` / `createDeposit` wrappers, the
two-account `transfer` saga (controllers/accountController.mjs), the pure
helpers `calculateNewBalance` and `generateReference` (utils/helpers.mjs),
and the account-creation / activation operations (controllers/authController.mjs).

Persistent store state (Supabase `profiles` and `transactions` tables) is a
`DB` value; each fallible store write is driven by an explicit success flag
so that partial-failure and compensation paths can be analysed.  Monetary
values are integers (the claims under scrutiny only involve integral
amounts, for which JavaScript number arithmetic is exact).
-/

/-- A row of the `transactions` table (a ledger movement).
Fields optional in the inserted JS object are `Option`s: the account-route
transfer inserts no `transaction_type` and no `reference` key. -/
structure Movement where
  id : Nat
  user_id : Nat
  type : String
  amount : Int
  description : Option String
  to_account_number : Option String
  transaction_type : Option String
  reference : Option String
  status : String
  deriving Repr, DecidableEq

/-- A row of the `profiles` table (an account). -/
structure Profile where
  id : Nat
  name : String
  email : String
  account_number : String
  balance : Int
  is_active : Bool
  deriving Repr, DecidableEq

/-- The persistent store: the `profiles` and `transactions` tables, plus a
counter supplying fresh movement ids. -/
structure DB where
  profiles : List Profile
  transactions : List Movement
  nextId : Nat
  deriving Repr, DecidableEq

/-- utils/helpers.mjs `calculateNewBalance`: `current + amount` for credit,
`current - amount` for debit, identity otherwise. -/
def calculateNewBalance (currentBalance amount : Int) (type : String) : Int :=
  if type = "credit" then currentBalance + amount
  else if type = "debit" then currentBalance - amount
  else currentBalance

/-- utils/helpers.mjs `generateReference`: category prefix (first three
characters of the upper-cased category), a timestamp part and a random part,
joined by dashes and upper-cased.  The timestamp (`Date.now().toString(36)`)
and random suffix (`Math.random().toString(36).substring(2, 8)`) are
environment inputs, passed here as parameters. -/
def generateReference (type ts rnd : String) : String :=
  ((type.toUpper.take 3) ++ "-" ++ ts ++ "-" ++ rnd).toUpper

/-- The JSON reply of a money-movement endpoint: an error with HTTP status,
error code and error message, or success carrying the movement row returned
by the insert together with the computed new balance. -/
inductive ApiResponse where
  | err (status : Nat) (code : String) (msg : String)
  | ok (m : Movement) (new_balance : Int)
  deriving Repr, DecidableEq

/-- Failure injection for the store calls of `createTransaction`:
`insertErr = some msg` makes the movement insert fail with store error
message `msg`; `updateOk` drives the balance update; `compDeleteOk` drives
the compensating delete issued when the balance update failed. -/
structure TxFlags where
  insertErr : Option String
  updateOk : Bool
  compDeleteOk : Bool
  deriving Repr, DecidableEq

/-- Failure injection for the store calls of the account-route `transfer`,
one flag per write call site (primary writes and compensation writes). -/
structure TransferFlags where
  debitInsertOk : Bool
  creditInsertOk : Bool
  senderUpdateOk : Bool
  recipientUpdateOk : Bool
  compDeleteDebitOk : Bool
  compDeleteCreditOk : Bool
  compRestoreSenderOk : Bool
  deriving Repr, DecidableEq

/-- A write call issued against the store, for tracing call order. -/
inductive StoreCall where
  | insertTx (m : Movement)
  | deleteTx (id : Nat)
  | updateBal (user_id : Nat) (new_balance : Int)
  deriving Repr, DecidableEq

/-- Store write: set the balance of every profile row matching `uid`
(`.update({balance}).eq('id', uid)`). -/
def setBalance (db : DB) (uid : Nat) (newBal : Int) : DB :=
  { db with
    profiles := db.profiles.map fun p =>
      if p.id = uid then { p with balance := newBal } else p }

/-- Store write: delete every transaction row matching `i`
(`.delete().eq('id', i)`). -/
def deleteTx (db : DB) (i : Nat) : DB :=
  { db with transactions := db.transactions.filter fun m => m.id ≠ i }

/-- Store write: insert a movement row, the store assigning it a fresh id.
Returns the updated store and the inserted row (`.insert([...]).select().single()`). -/
def insertTx (db : DB) (m0 : Movement) : DB × Movement :=
  let m := { m0 with id := db.nextId }
  ({ db with transactions := db.transactions ++ [m], nextId := db.nextId + 1 }, m)

/-- controllers/transactionController.mjs `createTransaction`: the movement
executor.  `user` is the authenticated `req.user`; the account balance is
re-fetched from the store by id.  Validation (active flag, direction,
amount, category, sufficient funds) happens before any write; on balance
update failure the freshly inserted movement is deleted (best effort, the
result of the delete unchecked) and a generic TRANSACTION_FAILED error is
returned. -/
def createTransaction (db : DB) (user : Profile) (type : String) (amount : Int)
    (description : Option String) (to_account_number : Option String)
    (transaction_type : String) (ts rnd : String) (f : TxFlags) :
    DB × ApiResponse :=
  if user.is_active = false then
    (db, .err 403 "ACCOUNT_INACTIVE"
      "Account is not active. Please wait for activation to perform transactions.")
  else if ¬ (type = "credit" ∨ type = "debit") then
    (db, .err 400 "INVALID_TRANSACTION_TYPE" "Invalid transaction type")
  else if amount ≤ 0 then
    (db, .err 400 "INVALID_AMOUNT" "Amount must be positive")
  else if ¬ (transaction_type = "transfer" ∨ transaction_type = "withdrawal" ∨
        transaction_type = "deposit" ∨ transaction_type = "payment" ∨
        transaction_type = "refund") then
    (db, .err 400 "INVALID_TRANSACTION_CATEGORY" "Invalid transaction type")
  else
    match db.profiles.find? (fun p => p.id = user.id) with
    | none => (db, .err 400 "ACCOUNT_NOT_FOUND" "Failed to fetch account balance")
    | some profile =>
      if type = "debit" ∧ profile.balance < amount then
        (db, .err 400 "INSUFFICIENT_FUNDS" "Insufficient funds")
      else
        let reference := generateReference transaction_type ts rnd
        match f.insertErr with
        | some msg => (db, .err 400 "TRANSACTION_FAILED" msg)
        | none =>
          let ins := insertTx db
            { id := 0, user_id := user.id, type := type, amount := amount,
              description := description, to_account_number := to_account_number,
              transaction_type := some transaction_type,
              reference := some reference, status := "completed" }
          let newBalance := calculateNewBalance profile.balance amount type
          if f.updateOk then
            (setBalance ins.1 user.id newBalance, .ok ins.2 newBalance)
          else
            ((if f.compDeleteOk then deleteTx ins.1 ins.2.id else ins.1),
             .err 400 "TRANSACTION_FAILED" "Transaction failed")

/-- controllers/transactionController.mjs `createTransfer`: requires a
recipient account number, then delegates to `createTransaction` with
`type = debit`, `transaction_type = transfer` and a defaulted description.
It never touches the recipient account. -/
def createTransfer (db : DB) (user : Profile) (amount : Int)
    (description : Option String) (to_account_number : Option String)
    (ts rnd : String) (f : TxFlags) : DB × ApiResponse :=
  match to_account_number with
  | none => (db, .err 400 "MISSING_RECIPIENT"
      "Recipient account number is required for transfers")
  | some toA =>
    createTransaction db user "debit" amount
      (some (description.getD ("Transfer to " ++ toA))) (some toA) "transfer" ts rnd f

/-- controllers/transactionController.mjs `createWithdrawal`: delegates to
`createTransaction` with `type = debit`, `transaction_type = withdrawal`. -/
def createWithdrawal (db : DB) (user : Profile) (amount : Int)
    (description : Option String) (to_account_number : Option String)
    (ts rnd : String) (f : TxFlags) : DB × ApiResponse :=
  createTransaction db user "debit" amount
    (some (description.getD (match to_account_number with
      | some toA => "Withdrawal to " ++ toA
      | none => "Withdrawal")))
    to_account_number "withdrawal" ts rnd f

/-- controllers/transactionController.mjs `createDeposit`: delegates to
`createTransaction` with `type = credit`, `transaction_type = deposit`. -/
def createDeposit (db : DB) (user : Profile) (amount : Int)
    (description : Option String) (ts rnd : String) (f : TxFlags) :
    DB × ApiResponse :=
  createTransaction db user "credit" amount
    (some (description.getD "Deposit")) none "deposit" ts rnd f

/-- Result of the account-route transfer: final store, HTTP reply, and the
ordered list of write calls issued against the store. -/
structure TransferOut where
  db : DB
  resp : ApiResponse
  calls : List StoreCall
  deriving Repr, DecidableEq

/-- The sender debit row inserted by the account-route `transfer` (before
the store assigns its id): no `transaction_type`, no `reference`. -/
def debitRow (user : Profile) (to_account_number : String) (amount : Int)
    (description : Option String) : Movement :=
  { id := 0, user_id := user.id, type := "debit", amount := amount,
    description := some (description.getD ("Transfer to " ++ to_account_number)),
    to_account_number := some to_account_number,
    transaction_type := none, reference := none, status := "completed" }

/-- The recipient credit row inserted by the account-route `transfer`
(before the store assigns its id): counterparty is the sender's account
number; no `transaction_type`, no `reference`. -/
def creditRow (recipient senderProfile : Profile) (amount : Int)
    (description : Option String) : Movement :=
  { id := 0, user_id := recipient.id, type := "credit", amount := amount,
    description := some (description.getD
      ("Transfer from " ++ senderProfile.account_number)),
    to_account_number := some senderProfile.account_number,
    transaction_type := none, reference := none, status := "completed" }

/-- The write sequence of the account-route `transfer` after all validation
has passed: insert sender debit, insert recipient credit, update sender
balance, update recipient balance, compensating on each failure by deleting
the inserted rows (in insertion order) and, for a recipient-update failure,
restoring the sender balance.  Compensation call results are unchecked. -/
def transferSaga (db : DB) (user recipient senderProfile : Profile)
    (to_account_number : String) (amount : Int) (description : Option String)
    (f : TransferFlags) : TransferOut :=
  let dRow := debitRow user to_account_number amount description
  if f.debitInsertOk = false then
    ⟨db, .err 400 "TRANSACTION_FAILED" "Failed to create debit transaction",
     [.insertTx dRow]⟩
  else
    let ins1 := insertTx db dRow
    let cRow := creditRow recipient senderProfile amount description
    if f.creditInsertOk = false then
      ⟨(if f.compDeleteDebitOk then deleteTx ins1.1 ins1.2.id else ins1.1),
       .err 400 "TRANSACTION_FAILED" "Failed to create credit transaction",
       [.insertTx dRow, .insertTx cRow, .deleteTx ins1.2.id]⟩
    else
      let ins2 := insertTx ins1.1 cRow
      if f.senderUpdateOk = false then
        let c1 := if f.compDeleteDebitOk then deleteTx ins2.1 ins1.2.id else ins2.1
        let c2 := if f.compDeleteCreditOk then deleteTx c1 ins2.2.id else c1
        ⟨c2, .err 400 "TRANSACTION_FAILED" "Failed to update sender balance",
         [.insertTx dRow, .insertTx cRow,
          .updateBal user.id (senderProfile.balance - amount),
          .deleteTx ins1.2.id, .deleteTx ins2.2.id]⟩
      else
        let db3 := setBalance ins2.1 user.id (senderProfile.balance - amount)
        if f.recipientUpdateOk = false then
          let c1 := if f.compDeleteDebitOk then deleteTx db3 ins1.2.id else db3
          let c2 := if f.compDeleteCreditOk then deleteTx c1 ins2.2.id else c1
          let c3 := if f.compRestoreSenderOk then
              setBalance c2 user.id senderProfile.balance else c2
          ⟨c3, .err 400 "TRANSACTION_FAILED" "Failed to update recipient balance",
           [.insertTx dRow, .insertTx cRow,
            .updateBal user.id (senderProfile.balance - amount),
            .updateBal recipient.id (recipient.balance + amount),
            .deleteTx ins1.2.id, .deleteTx ins2.2.id,
            .updateBal user.id senderProfile.balance]⟩
        else
          ⟨setBalance db3 recipient.id (recipient.balance + amount),
           .ok ins1.2 (senderProfile.balance - amount),
           [.insertTx dRow, .insertTx cRow,
            .updateBal user.id (senderProfile.balance - amount),
            .updateBal recipient.id (recipient.balance + amount)]⟩

/-- controllers/accountController.mjs `transfer`: the two-account saga.
Checks sender active flag, positive amount, recipient existence/active/not
self, then re-fetches the sender profile and checks funds; then runs the
write sequence `transferSaga`.  Neither inserted movement carries a
`transaction_type` or `reference` field. -/
def transfer (db : DB) (user : Profile) (to_account_number : String)
    (amount : Int) (description : Option String) (f : TransferFlags) :
    TransferOut :=
  if user.is_active = false then
    ⟨db, .err 403 "ACCOUNT_INACTIVE"
      "Account is not active. Please wait for activation to perform transfers.", []⟩
  else if amount ≤ 0 then
    ⟨db, .err 400 "INVALID_AMOUNT" "Amount must be positive", []⟩
  else
    match db.profiles.find? (fun p => p.account_number = to_account_number) with
    | none => ⟨db, .err 400 "ACCOUNT_NOT_FOUND" "Recipient account not found", []⟩
    | some recipient =>
      if recipient.is_active = false then
        ⟨db, .err 400 "RECIPIENT_INACTIVE" "Recipient account is not active", []⟩
      else if recipient.id = user.id then
        ⟨db, .err 400 "SELF_TRANSFER" "Cannot transfer to your own account", []⟩
      else
        match db.profiles.find? (fun p => p.id = user.id) with
        | none => ⟨db, .err 400 "ACCOUNT_NOT_FOUND" "Failed to fetch sender account", []⟩
        | some senderProfile =>
          if senderProfile.balance < amount then
            ⟨db, .err 400 "INSUFFICIENT_FUNDS" "Insufficient funds", []⟩
          else
            transferSaga db user recipient senderProfile to_account_number
              amount description f

/-- controllers/authController.mjs `signup`: after the duplicate-email check
the new profile row is inserted with `balance: 100000.00` and
`is_active: ACCOUNT_STATUS.INACTIVE` (`false`).  Returns the updated store
and the created profile; fails when the email already exists. -/
def signup (db : DB) (pid : Nat) (name email account_number : String) :
    DB × Option Profile :=
  match db.profiles.find? (fun p => p.email = email) with
  | some _ => (db, none)
  | none =>
    let newUser : Profile :=
      { id := pid, name := name, email := email,
        account_number := account_number, balance := 100000, is_active := false }
    ({ db with profiles := db.profiles ++ [newUser] }, some newUser)

/-- controllers/authController.mjs `activateAccount` (admin route): sets
`is_active: true` on the profile row matching `userId`. -/
def activateAccount (db : DB) (userId : Nat) : DB :=
  { db with
    profiles := db.profiles.map fun p =>
      if p.id = userId then { p with is_active := true } else p }

/-- One serial money-movement request: either a `createTransaction` call
(the movement executor) or an account-route `transfer` call, issued by the
authenticated user with the given id.  The middleware-loaded `req.user` is
the profile row of that id at the time the request runs. -/
inductive Op where
  | movement (uid : Nat) (type : String) (amount : Int)
      (description : Option String) (to_account_number : Option String)
      (transaction_type : String) (ts rnd : String) (f : TxFlags)
  | xfer (uid : Nat) (to_account_number : String) (amount : Int)
      (description : Option String) (f : TransferFlags)

/-- Run one serial request against the store: the auth middleware loads the
profile of the authenticated user (rejecting the request if absent), then
the controller runs. -/
def runOp (db : DB) (op : Op) : DB :=
  match op with
  | .movement uid ty amount d toA txT ts rnd f =>
    match db.profiles.find? (fun p => p.id = uid) with
    | none => db
    | some user => (createTransaction db user ty amount d toA txT ts rnd f).1
  | .xfer uid toA amount d f =>
    match db.profiles.find? (fun p => p.id = uid) with
    | none => db
    | some user => (transfer db user toA amount d f).db

/-- Run a serial history of money-movement requests. -/
def runHistory (db : DB) : List Op → DB
  | [] => db
  | op :: ops => runHistory (runOp db op) ops

/-- The signed ledger contribution of a movement row: `+amount` for a
credit, `-amount` for a debit. -/
def signedAmount (m : Movement) : Int :=
  if m.type = "credit" then m.amount
  else if m.type = "debit" then -m.amount
  else 0

/-- Sum of signed amounts of the `completed` movements recorded against the
account with id `uid`. -/
def signedSum (txs : List Movement) (uid : Nat) : Int :=
  ((txs.filter fun m => m.user_id = uid ∧ m.status = "completed").map
    signedAmount).sum

/-- Store well-formedness: movement ids are below the fresh-id counter and
profile ids are pairwise distinct (the store's primary keys). -/
def DB.wf (db : DB) : Prop :=
  (∀ m ∈ db.transactions, m.id < db.nextId) ∧
  db.profiles.Pairwise (fun p q => p.id ≠ q.id)

/-- The ledger-balance invariant: every account's balance equals its initial
balance (given by `init`) plus the sum of signed completed movements
recorded against it. -/
def BalInv (init : Nat → Int) (db : DB) : Prop :=
  ∀ p ∈ db.profiles, p.balance = init p.id + signedSum db.transactions p.id

/-- An operation in which every compensation store call succeeds (the
hypothesis of the serial ledger invariant: each store call either succeeds
or its compensation succeeds). -/
def Op.goodComp : Op → Prop
  | .movement _ _ _ _ _ _ _ _ f => f.compDeleteOk = true
  | .xfer _ _ _ _ f =>
      f.compDeleteDebitOk = true ∧ f.compDeleteCreditOk = true ∧
      f.compRestoreSenderOk = true

/-- Initial balance of the account with id `uid` in a store snapshot. -/
def initBal (db : DB) (uid : Nat) : Int :=
  (db.profiles.find? (fun p => p.id = uid)).elim 0 (fun p => p.balance)

lemma signedSum_nil (uid : Nat) : signedSum [] uid = 0 := rfl

lemma signedSum_append (xs ys : List Movement) (uid : Nat) :
    signedSum (xs ++ ys) uid = signedSum xs uid + signedSum ys uid := by
  simp [signedSum, List.filter_append]

lemma signedSum_singleton (m : Movement) (uid : Nat) :
    signedSum [m] uid =
      if m.user_id = uid ∧ m.status = "completed" then signedAmount m else 0 := by
  by_cases h : m.user_id = uid ∧ m.status = "completed" <;>
    simp [signedSum, List.filter, h]

lemma filter_id_ne_of_lt {txs : List Movement} {n : Nat}
    (h : ∀ m ∈ txs, m.id < n) :
    txs.filter (fun m => m.id ≠ n) = txs := by
  apply List.filter_eq_self.mpr
  intro m hm
  simpa using Nat.ne_of_lt (h m hm)

lemma pairwise_id_eq {l : List Profile}
    (h : l.Pairwise fun p q => p.id ≠ q.id)
    {p q : Profile} (hp : p ∈ l) (hq : q ∈ l) (hid : p.id = q.id) : p = q := by
  induction l with
  | nil => cases hp
  | cons a t ih =>
    rcases List.pairwise_cons.mp h with ⟨ha, ht⟩
    rcases List.mem_cons.mp hp with rfl | hp'
    · rcases List.mem_cons.mp hq with rfl | hq'
      · rfl
      · exact absurd hid (ha q hq')
    · rcases List.mem_cons.mp hq with rfl | hq'
      · exact absurd hid.symm (ha p hp')
      · exact ih ht hp' hq'

lemma map_eq_self_of {α : Type} (l : List α) (f : α → α)
    (h : ∀ x ∈ l, f x = x) : l.map f = l := by
  induction l with
  | nil => rfl
  | cons a t ih =>
    simp only [List.map_cons, h a (List.mem_cons_self a t)]
    rw [ih fun x hx => h x (List.mem_cons_of_mem a hx)]

lemma find?_id_spec {l : List Profile} {uid : Nat} {q : Profile}
    (h : l.find? (fun p => p.id = uid) = some q) : q ∈ l ∧ q.id = uid := by
  refine ⟨List.mem_of_find?_eq_some h, ?_⟩
  have := List.find?_some h
  simpa using this

lemma find?_acct_spec {l : List Profile} {a : String} {q : Profile}
    (h : l.find? (fun p => p.account_number = a) = some q) :
    q ∈ l ∧ q.account_number = a := by
  refine ⟨List.mem_of_find?_eq_some h, ?_⟩
  have := List.find?_some h
  simpa using this

lemma deleteTx_insertTx (db : DB) (m0 : Movement)
    (h : ∀ m ∈ db.transactions, m.id < db.nextId) :
    deleteTx (insertTx db m0).1 (insertTx db m0).2.id =
      { db with nextId := db.nextId + 1 } := by
  simp only [deleteTx, insertTx, List.filter_append]
  rw [show (db.transactions.filter fun m =>
        m.id ≠ ({ m0 with id := db.nextId } : Movement).id) = db.transactions from
      filter_id_ne_of_lt h]
  simp [List.filter]

section ShapeLemmas

variable (db : DB) (user : Profile) (ty : String) (amount : Int)
variable (d toA : Option String) (txT ts rnd : String)

/-- The category whitelist of `createTransaction`. -/
def validCategory (txT : String) : Prop :=
  txT = "transfer" ∨ txT = "withdrawal" ∨ txT = "deposit" ∨
    txT = "payment" ∨ txT = "refund"

lemma createTransaction_inactive (f : TxFlags) (h : user.is_active = false) :
    createTransaction db user ty amount d toA txT ts rnd f =
      (db, .err 403 "ACCOUNT_INACTIVE"
        "Account is not active. Please wait for activation to perform transactions.") := by
  simp [createTransaction, h]

lemma createTransaction_insufficient (f : TxFlags) (profile : Profile)
    (h1 : user.is_active = true) (h2 : ty = "debit") (h3 : 0 < amount)
    (h4 : validCategory txT)
    (hfind : db.profiles.find? (fun p => p.id = user.id) = some profile)
    (h5 : profile.balance < amount) :
    createTransaction db user ty amount d toA txT ts rnd f =
      (db, .err 400 "INSUFFICIENT_FUNDS" "Insufficient funds") := by
  rcases h4 with h4 | h4 | h4 | h4 | h4 <;>
    simp [createTransaction, h1, h2, h3, not_le.mpr h3, h4, hfind, h5]

/-- The movement row handed to the store by `createTransaction` (before the
store assigns its id). -/
def txRow (user : Profile) (ty : String) (amount : Int) (d toA : Option String)
    (txT ts rnd : String) : Movement :=
  { id := 0, user_id := user.id, type := ty, amount := amount,
    description := d, to_account_number := toA,
    transaction_type := some txT,
    reference := some (generateReference txT ts rnd), status := "completed" }

lemma createTransaction_insertErr (msg : String) (uo cd : Bool)
    (profile : Profile)
    (h1 : user.is_active = true) (h2 : ty = "credit" ∨ ty = "debit")
    (h3 : 0 < amount) (h4 : validCategory txT)
    (hfind : db.profiles.find? (fun p => p.id = user.id) = some profile)
    (h5 : ¬ (ty = "debit" ∧ profile.balance < amount)) :
    createTransaction db user ty amount d toA txT ts rnd ⟨some msg, uo, cd⟩ =
      (db, .err 400 "TRANSACTION_FAILED" msg) := by
  rcases h4 with h4 | h4 | h4 | h4 | h4 <;> rcases h2 with h2 | h2 <;>
    simp_all [createTransaction, not_le.mpr h3]

lemma createTransaction_writes (uo cd : Bool) (profile : Profile)
    (h1 : user.is_active = true) (h2 : ty = "credit" ∨ ty = "debit")
    (h3 : 0 < amount) (h4 : validCategory txT)
    (hfind : db.profiles.find? (fun p => p.id = user.id) = some profile)
    (h5 : ¬ (ty = "debit" ∧ profile.balance < amount)) :
    createTransaction db user ty amount d toA txT ts rnd ⟨none, uo, cd⟩ =
      (let ins := insertTx db (txRow user ty amount d toA txT ts rnd)
       let newBalance := calculateNewBalance profile.balance amount ty
       if uo then (setBalance ins.1 user.id newBalance, .ok ins.2 newBalance)
       else ((if cd then deleteTx ins.1 ins.2.id else ins.1),
             .err 400 "TRANSACTION_FAILED" "Transaction failed")) := by
  rcases h4 with h4 | h4 | h4 | h4 | h4 <;> rcases h2 with h2 | h2 <;>
    simp_all [createTransaction, not_le.mpr h3, txRow]

lemma createTransaction_invalidType (f : TxFlags)
    (h1 : user.is_active = true) (h2 : ¬ (ty = "credit" ∨ ty = "debit")) :
    createTransaction db user ty amount d toA txT ts rnd f =
      (db, .err 400 "INVALID_TRANSACTION_TYPE" "Invalid transaction type") := by
  simp [createTransaction, h1, h2]

lemma createTransaction_invalidAmount (f : TxFlags)
    (h1 : user.is_active = true) (h2 : ty = "credit" ∨ ty = "debit")
    (h3 : amount ≤ 0) :
    createTransaction db user ty amount d toA txT ts rnd f =
      (db, .err 400 "INVALID_AMOUNT" "Amount must be positive") := by
  rcases h2 with h2 | h2 <;> simp [createTransaction, h1, h2, h3]

lemma createTransaction_invalidCategory (f : TxFlags)
    (h1 : user.is_active = true) (h2 : ty = "credit" ∨ ty = "debit")
    (h3 : 0 < amount) (h4 : ¬ validCategory txT) :
    createTransaction db user ty amount d toA txT ts rnd f =
      (db, .err 400 "INVALID_TRANSACTION_CATEGORY" "Invalid transaction type") := by
  rw [validCategory] at h4
  rcases h2 with h2 | h2 <;> simp [createTransaction, h1, h2, not_le.mpr h3, h4]

lemma createTransaction_notFound (f : TxFlags)
    (h1 : user.is_active = true) (h2 : ty = "credit" ∨ ty = "debit")
    (h3 : 0 < amount) (h4 : validCategory txT)
    (hfind : db.profiles.find? (fun p => p.id = user.id) = none) :
    createTransaction db user ty amount d toA txT ts rnd f =
      (db, .err 400 "ACCOUNT_NOT_FOUND" "Failed to fetch account balance") := by
  rcases h4 with h4 | h4 | h4 | h4 | h4 <;> rcases h2 with h2 | h2 <;>
    simp [createTransaction, h1, h2, h4, not_le.mpr h3, hfind]

end ShapeLemmas

lemma pairwise_setBalance {l : List Profile} (uid : Nat) (b : Int)
    (h : l.Pairwise fun p q => p.id ≠ q.id) :
    (l.map fun p => if p.id = uid then { p with balance := b } else p).Pairwise
      (fun p q => p.id ≠ q.id) := by
  rw [List.pairwise_map]
  refine h.imp ?_
  intro p q hpq
  by_cases hp : p.id = uid <;> by_cases hq : q.id = uid
  · exact absurd (hp.trans hq.symm) hpq
  · simp only [if_pos hp, if_neg hq]
    intro hcon
    exact hq (hp ▸ hcon ▸ rfl)
  · simp only [if_neg hp, if_pos hq]
    intro hcon
    exact hp (hq ▸ hcon ▸ rfl)
  · simp only [if_neg hp, if_neg hq]
    exact hpq

lemma createTransaction_success (db : DB) (user : Profile) (ty : String)
    (amount : Int) (d toA : Option String) (txT ts rnd : String) (cd : Bool)
    (profile : Profile)
    (h1 : user.is_active = true) (h2 : ty = "credit" ∨ ty = "debit")
    (h3 : 0 < amount) (h4 : validCategory txT)
    (hfind : db.profiles.find? (fun p => p.id = user.id) = some profile)
    (h5 : ¬ (ty = "debit" ∧ profile.balance < amount)) :
    createTransaction db user ty amount d toA txT ts rnd ⟨none, true, cd⟩ =
      (setBalance (insertTx db (txRow user ty amount d toA txT ts rnd)).1 user.id
         (calculateNewBalance profile.balance amount ty),
       .ok (insertTx db (txRow user ty amount d toA txT ts rnd)).2
         (calculateNewBalance profile.balance amount ty)) := by
  rw [createTransaction_writes db user ty amount d toA txT ts rnd true cd
    profile h1 h2 h3 h4 hfind h5]
  rfl

lemma createTransaction_updateFail (db : DB) (user : Profile) (ty : String)
    (amount : Int) (d toA : Option String) (txT ts rnd : String) (cd : Bool)
    (profile : Profile)
    (h1 : user.is_active = true) (h2 : ty = "credit" ∨ ty = "debit")
    (h3 : 0 < amount) (h4 : validCategory txT)
    (hfind : db.profiles.find? (fun p => p.id = user.id) = some profile)
    (h5 : ¬ (ty = "debit" ∧ profile.balance < amount)) :
    createTransaction db user ty amount d toA txT ts rnd ⟨none, false, cd⟩ =
      ((if cd then
          deleteTx (insertTx db (txRow user ty amount d toA txT ts rnd)).1
            (insertTx db (txRow user ty amount d toA txT ts rnd)).2.id
        else (insertTx db (txRow user ty amount d toA txT ts rnd)).1),
       .err 400 "TRANSACTION_FAILED" "Transaction failed") := by
  rw [createTransaction_writes db user ty amount d toA txT ts rnd false cd
    profile h1 h2 h3 h4 hfind h5]
  rfl

lemma wf_of_nextId_succ {db : DB} (hwf : db.wf) :
    DB.wf { db with nextId := db.nextId + 1 } :=
  ⟨fun m hm => Nat.lt_succ_of_lt (hwf.1 m hm), hwf.2⟩

lemma createTransaction_preserves (init : Nat → Int) (db : DB) (user : Profile)
    (ty : String) (amount : Int) (d toA : Option String) (txT ts rnd : String)
    (f : TxFlags) (hwf : db.wf) (hinv : BalInv init db)
    (hcomp : f.compDeleteOk = true) :
    (createTransaction db user ty amount d toA txT ts rnd f).1.wf ∧
      BalInv init (createTransaction db user ty amount d toA txT ts rnd f).1 := by
  obtain ⟨ie, uo, cd⟩ := f
  replace hcomp : cd = true := hcomp
  subst hcomp
  by_cases h1 : user.is_active = false
  · rw [createTransaction_inactive db user ty amount d toA txT ts rnd _ h1]
    exact ⟨hwf, hinv⟩
  replace h1 : user.is_active = true := by
    cases h : user.is_active with
    | false => exact absurd h h1
    | true => rfl
  by_cases h2 : ty = "credit" ∨ ty = "debit"
  case neg =>
    rw [createTransaction_invalidType db user ty amount d toA txT ts rnd _ h1 h2]
    exact ⟨hwf, hinv⟩
  by_cases h3 : amount ≤ 0
  · rw [createTransaction_invalidAmount db user ty amount d toA txT ts rnd _ h1 h2 h3]
    exact ⟨hwf, hinv⟩
  replace h3 : 0 < amount := lt_of_not_le h3
  by_cases h4 : validCategory txT
  case neg =>
    rw [createTransaction_invalidCategory db user ty amount d toA txT ts rnd _ h1 h2 h3 h4]
    exact ⟨hwf, hinv⟩
  cases hfind : db.profiles.find? (fun p => p.id = user.id) with
  | none =>
    rw [createTransaction_notFound db user ty amount d toA txT ts rnd _ h1 h2 h3 h4 hfind]
    exact ⟨hwf, hinv⟩
  | some profile =>
  by_cases h5 : ty = "debit" ∧ profile.balance < amount
  · rw [createTransaction_insufficient db user ty amount d toA txT ts rnd _ profile
      h1 h5.1 h3 h4 hfind h5.2]
    exact ⟨hwf, hinv⟩
  cases ie with
  | some msg =>
    rw [createTransaction_insertErr db user ty amount d toA txT ts rnd msg uo true
      profile h1 h2 h3 h4 hfind h5]
    exact ⟨hwf, hinv⟩
  | none =>
  have hprof := find?_id_spec hfind
  cases uo with
  | false =>
    rw [createTransaction_updateFail db user ty amount d toA txT ts rnd true
      profile h1 h2 h3 h4 hfind h5]
    simp only [ite_true]
    rw [deleteTx_insertTx db _ hwf.1]
    exact ⟨wf_of_nextId_succ hwf, hinv⟩
  | true =>
    rw [createTransaction_success db user ty amount d toA txT ts rnd true
      profile h1 h2 h3 h4 hfind h5]
    constructor
    · constructor
      · intro m hm
        simp only [setBalance, insertTx] at hm ⊢
        rcases List.mem_append.mp hm with hm | hm
        · exact Nat.lt_succ_of_lt (hwf.1 m hm)
        · rcases List.mem_singleton.mp hm with rfl
          exact Nat.lt_succ_self _
      · exact pairwise_setBalance _ _ hwf.2
    · intro p' hp'
      simp only [setBalance, insertTx] at hp'
      rcases List.mem_map.mp hp' with ⟨p, hp, rfl⟩
      simp only [setBalance, insertTx]
      rw [signedSum_append]
      by_cases hc : p.id = user.id
      · have hpprof : p = profile :=
          pairwise_id_eq hwf.2 hp hprof.1 (hc.trans hprof.2.symm)
        rw [if_pos hc]
        have hbal := hinv profile hprof.1
        rw [signedSum_singleton]
        simp only [txRow]
        rw [if_pos (⟨hc.symm, trivial⟩ : _ ∧ _)]
        rcases h2 with h2 | h2 <;>
          simp [calculateNewBalance, signedAmount, h2, hpprof, hbal] <;> ring
      · rw [if_neg hc]
        rw [signedSum_singleton]
        simp only [txRow]
        rw [if_neg (fun hcon => hc (hcon.1.symm))]
        rw [hinv p hp]
        ring

lemma transfer_inactive (db : DB) (user : Profile) (toA : String)
    (amount : Int) (d : Option String) (f : TransferFlags)
    (h : user.is_active = false) :
    transfer db user toA amount d f =
      ⟨db, .err 403 "ACCOUNT_INACTIVE"
        "Account is not active. Please wait for activation to perform transfers.", []⟩ := by
  simp [transfer, h]

lemma transfer_validated (db : DB) (user recipient senderProfile : Profile)
    (toA : String) (amount : Int) (d : Option String) (f : TransferFlags)
    (hact : user.is_active = true) (hamt : 0 < amount)
    (hrec : db.profiles.find? (fun p => p.account_number = toA) = some recipient)
    (hrecact : recipient.is_active = true) (hrecne : recipient.id ≠ user.id)
    (hsnd : db.profiles.find? (fun p => p.id = user.id) = some senderProfile)
    (hbal : ¬ senderProfile.balance < amount) :
    transfer db user toA amount d f =
      transferSaga db user recipient senderProfile toA amount d f := by
  simp [transfer, hact, not_le.mpr hamt, hrec, hrecact, hrecne, hsnd, hbal]

lemma deleteTx2_insertTx2 (db : DB) (r1 r2 : Movement)
    (h : ∀ m ∈ db.transactions, m.id < db.nextId) :
    deleteTx (deleteTx (insertTx (insertTx db r1).1 r2).1
        (insertTx db r1).2.id) (insertTx (insertTx db r1).1 r2).2.id =
      { db with nextId := db.nextId + 2 } := by
  have h1 : db.transactions.filter (fun m => m.id ≠ db.nextId) = db.transactions :=
    filter_id_ne_of_lt h
  have h2 : db.transactions.filter (fun m => m.id ≠ db.nextId + 1) = db.transactions :=
    filter_id_ne_of_lt (fun m hm => Nat.lt_succ_of_lt (h m hm))
  simp [deleteTx, insertTx, List.filter_append, h1, h2, List.filter]
  intro m hm
  have := h m hm
  omega

lemma transferSaga_debitFail (db : DB) (user recipient senderProfile : Profile)
    (toA : String) (amount : Int) (d : Option String)
    (ci su ru cd1 cd2 cr : Bool) :
    transferSaga db user recipient senderProfile toA amount d
        ⟨false, ci, su, ru, cd1, cd2, cr⟩ =
      ⟨db, .err 400 "TRANSACTION_FAILED" "Failed to create debit transaction",
       [.insertTx (debitRow user toA amount d)]⟩ := rfl

lemma transferSaga_creditFail (db : DB) (user recipient senderProfile : Profile)
    (toA : String) (amount : Int) (d : Option String) (su ru cd2 cr : Bool) :
    transferSaga db user recipient senderProfile toA amount d
        ⟨true, false, su, ru, true, cd2, cr⟩ =
      ⟨deleteTx (insertTx db (debitRow user toA amount d)).1 db.nextId,
       .err 400 "TRANSACTION_FAILED" "Failed to create credit transaction",
       [.insertTx (debitRow user toA amount d),
        .insertTx (creditRow recipient senderProfile amount d),
        .deleteTx db.nextId]⟩ := rfl

lemma transferSaga_senderFail (db : DB) (user recipient senderProfile : Profile)
    (toA : String) (amount : Int) (d : Option String) (ru cr : Bool) :
    transferSaga db user recipient senderProfile toA amount d
        ⟨true, true, false, ru, true, true, cr⟩ =
      ⟨deleteTx (deleteTx (insertTx (insertTx db (debitRow user toA amount d)).1
          (creditRow recipient senderProfile amount d)).1 db.nextId) (db.nextId + 1),
       .err 400 "TRANSACTION_FAILED" "Failed to update sender balance",
       [.insertTx (debitRow user toA amount d),
        .insertTx (creditRow recipient senderProfile amount d),
        .updateBal user.id (senderProfile.balance - amount),
        .deleteTx db.nextId, .deleteTx (db.nextId + 1)]⟩ := rfl

lemma transferSaga_recipFail (db : DB) (user recipient senderProfile : Profile)
    (toA : String) (amount : Int) (d : Option String) :
    transferSaga db user recipient senderProfile toA amount d
        ⟨true, true, true, false, true, true, true⟩ =
      ⟨setBalance (deleteTx (deleteTx
          (setBalance (insertTx (insertTx db (debitRow user toA amount d)).1
             (creditRow recipient senderProfile amount d)).1 user.id
             (senderProfile.balance - amount)) db.nextId) (db.nextId + 1))
         user.id senderProfile.balance,
       .err 400 "TRANSACTION_FAILED" "Failed to update recipient balance",
       [.insertTx (debitRow user toA amount d),
        .insertTx (creditRow recipient senderProfile amount d),
        .updateBal user.id (senderProfile.balance - amount),
        .updateBal recipient.id (recipient.balance + amount),
        .deleteTx db.nextId, .deleteTx (db.nextId + 1),
        .updateBal user.id senderProfile.balance]⟩ := rfl

lemma transferSaga_success (db : DB) (user recipient senderProfile : Profile)
    (toA : String) (amount : Int) (d : Option String) (cd1 cd2 cr : Bool) :
    transferSaga db user recipient senderProfile toA amount d
        ⟨true, true, true, true, cd1, cd2, cr⟩ =
      ⟨setBalance (setBalance (insertTx (insertTx db (debitRow user toA amount d)).1
          (creditRow recipient senderProfile amount d)).1 user.id
          (senderProfile.balance - amount)) recipient.id
          (recipient.balance + amount),
       .ok (insertTx db (debitRow user toA amount d)).2
         (senderProfile.balance - amount),
       [.insertTx (debitRow user toA amount d),
        .insertTx (creditRow recipient senderProfile amount d),
        .updateBal user.id (senderProfile.balance - amount),
        .updateBal recipient.id (recipient.balance + amount)]⟩ := rfl

lemma setBalance_restore_profiles (l : List Profile) (uid : Nat) (b : Int)
    (q : Profile) (hpair : l.Pairwise fun p p' => p.id ≠ p'.id)
    (hq : l.find? (fun p => p.id = uid) = some q) :
    ((l.map fun p => if p.id = uid then { p with balance := b } else p).map
      fun p => if p.id = uid then { p with balance := q.balance } else p) = l := by
  rw [List.map_map]
  apply map_eq_self_of
  intro p hp
  by_cases hc : p.id = uid
  · have hpq : p = q :=
      pairwise_id_eq hpair hp (find?_id_spec hq).1 (hc.trans (find?_id_spec hq).2.symm)
    subst hpq
    simp only [Function.comp_apply, if_pos hc]
  · simp only [Function.comp_apply, if_neg hc]

lemma wf_balinv_of_eq (init : Nat → Int) (dbx db : DB)
    (hp : dbx.profiles = db.profiles) (ht : dbx.transactions = db.transactions)
    (hn : db.nextId ≤ dbx.nextId) (hwf : db.wf) (hinv : BalInv init db) :
    dbx.wf ∧ BalInv init dbx := by
  refine ⟨⟨fun m hm => ?_, ?_⟩, ?_⟩
  · rw [ht] at hm
    exact lt_of_lt_of_le (hwf.1 m hm) hn
  · rw [hp]
    exact hwf.2
  · intro p hpm
    rw [hp] at hpm
    rw [ht]
    exact hinv p hpm

lemma transferSaga_preserves (init : Nat → Int) (db : DB)
    (user recipient senderProfile : Profile) (toA : String) (amount : Int)
    (d : Option String) (f : TransferFlags)
    (hwf : db.wf) (hinv : BalInv init db)
    (hrecmem : recipient ∈ db.profiles)
    (hsnd : db.profiles.find? (fun p => p.id = user.id) = some senderProfile)
    (hrecne : recipient.id ≠ user.id)
    (hcomp : f.compDeleteDebitOk = true ∧ f.compDeleteCreditOk = true ∧
      f.compRestoreSenderOk = true) :
    (transferSaga db user recipient senderProfile toA amount d f).db.wf ∧
      BalInv init (transferSaga db user recipient senderProfile toA amount d f).db := by
  obtain ⟨di, ci, su, ru, cd1, cd2, cr⟩ := f
  obtain ⟨hc1, hc2, hc3⟩ := hcomp
  replace hc1 : cd1 = true := hc1
  replace hc2 : cd2 = true := hc2
  replace hc3 : cr = true := hc3
  subst hc1; subst hc2; subst hc3
  have hsndmem := (find?_id_spec hsnd).1
  have hsndid := (find?_id_spec hsnd).2
  cases di with
  | false =>
    rw [transferSaga_debitFail]
    exact ⟨hwf, hinv⟩
  | true =>
  cases ci with
  | false =>
    rw [transferSaga_creditFail]
    rw [show db.nextId = (insertTx db (debitRow user toA amount d)).2.id from rfl,
      deleteTx_insertTx db _ hwf.1]
    exact ⟨wf_of_nextId_succ hwf, hinv⟩
  | true =>
  cases su with
  | false =>
    rw [transferSaga_senderFail]
    rw [show (deleteTx (deleteTx (insertTx (insertTx db (debitRow user toA amount d)).1
          (creditRow recipient senderProfile amount d)).1 db.nextId) (db.nextId + 1)) =
        (deleteTx (deleteTx (insertTx (insertTx db (debitRow user toA amount d)).1
          (creditRow recipient senderProfile amount d)).1
          (insertTx db (debitRow user toA amount d)).2.id)
          (insertTx (insertTx db (debitRow user toA amount d)).1
            (creditRow recipient senderProfile amount d)).2.id) from rfl,
      deleteTx2_insertTx2 db _ _ hwf.1]
    exact wf_balinv_of_eq init _ db rfl rfl (Nat.le_add_right db.nextId 2) hwf hinv
  | true =>
  cases ru with
  | false =>
    rw [transferSaga_recipFail]
    have hprofiles :
        (setBalance (deleteTx (deleteTx
            (setBalance (insertTx (insertTx db (debitRow user toA amount d)).1
               (creditRow recipient senderProfile amount d)).1 user.id
               (senderProfile.balance - amount)) db.nextId) (db.nextId + 1))
           user.id senderProfile.balance).profiles = db.profiles := by
      simp only [setBalance, deleteTx, insertTx]
      exact setBalance_restore_profiles db.profiles user.id _ senderProfile hwf.2 hsnd
    have htxs :
        (setBalance (deleteTx (deleteTx
            (setBalance (insertTx (insertTx db (debitRow user toA amount d)).1
               (creditRow recipient senderProfile amount d)).1 user.id
               (senderProfile.balance - amount)) db.nextId) (db.nextId + 1))
           user.id senderProfile.balance).transactions = db.transactions := by
      simp only [setBalance, deleteTx, insertTx, List.filter_append]
      rw [filter_id_ne_of_lt hwf.1,
        filter_id_ne_of_lt (fun m hm => Nat.lt_succ_of_lt (hwf.1 m hm))]
      simp [List.filter]
    exact wf_balinv_of_eq init _ db hprofiles htxs
      (Nat.le_add_right db.nextId 2) hwf hinv
  | true =>
    rw [transferSaga_success]
    constructor
    · constructor
      · intro m hm
        simp only [setBalance, insertTx] at hm ⊢
        rcases List.mem_append.mp hm with hm | hm
        · rcases List.mem_append.mp hm with hm | hm
          · have := hwf.1 m hm
            omega
          · rcases List.mem_singleton.mp hm with rfl
            show db.nextId < db.nextId + 1 + 1
            omega
        · rcases List.mem_singleton.mp hm with rfl
          show db.nextId + 1 < db.nextId + 1 + 1
          omega
      · exact pairwise_setBalance _ _ (pairwise_setBalance _ _ hwf.2)
    · intro p'' hp''
      simp only [setBalance, insertTx] at hp''
      rcases List.mem_map.mp hp'' with ⟨p', hp', rfl⟩
      rcases List.mem_map.mp hp' with ⟨p, hp, rfl⟩
      simp only [setBalance, insertTx]
      rw [signedSum_append, signedSum_append, signedSum_singleton, signedSum_singleton]
      by_cases hcs : p.id = user.id
      · have hps : p = senderProfile :=
          pairwise_id_eq hwf.2 hp hsndmem (hcs.trans hsndid.symm)
        rw [if_pos hcs]
        have hid2 : ({ p with balance := senderProfile.balance - amount } : Profile).id
            = p.id := rfl
        rw [show (if ({ p with balance := senderProfile.balance - amount } : Profile).id
              = recipient.id then
              { ({ p with balance := senderProfile.balance - amount } : Profile) with
                balance := recipient.balance + amount }
            else ({ p with balance := senderProfile.balance - amount } : Profile)) =
            ({ p with balance := senderProfile.balance - amount } : Profile) from
          if_neg (by rw [hid2, hcs]; exact fun hcon => hrecne hcon.symm)]
        simp only [debitRow, creditRow]
        rw [if_pos (⟨hcs.symm, trivial⟩ : _ ∧ _),
          if_neg (fun hcon : recipient.id = p.id ∧ _ => hrecne (hcon.1.trans hcs))]
        have hbal := hinv senderProfile hsndmem
        simp [signedAmount, hps, hbal]
        ring
      · rw [if_neg hcs]
        by_cases hcr : p.id = recipient.id
        · have hpr : p = recipient := pairwise_id_eq hwf.2 hp hrecmem hcr
          rw [if_pos hcr]
          simp only [debitRow, creditRow]
          rw [if_neg (fun hcon : user.id = p.id ∧ _ => hcs hcon.1.symm),
            if_pos (⟨hcr.symm, trivial⟩ : _ ∧ _)]
          have hbal := hinv recipient hrecmem
          simp [signedAmount, hpr, hbal]
          ring
        · rw [if_neg hcr]
          simp only [debitRow, creditRow]
          rw [if_neg (fun hcon : user.id = p.id ∧ _ => hcs hcon.1.symm),
            if_neg (fun hcon : recipient.id = p.id ∧ _ => hcr hcon.1.symm)]
          rw [hinv p hp]
          ring

lemma transfer_preserves (init : Nat → Int) (db : DB) (user : Profile)
    (toA : String) (amount : Int) (d : Option String) (f : TransferFlags)
    (hwf : db.wf) (hinv : BalInv init db)
    (hcomp : f.compDeleteDebitOk = true ∧ f.compDeleteCreditOk = true ∧
      f.compRestoreSenderOk = true) :
    (transfer db user toA amount d f).db.wf ∧
      BalInv init (transfer db user toA amount d f).db := by
  by_cases h1 : user.is_active = false
  · rw [transfer_inactive db user toA amount d f h1]
    exact ⟨hwf, hinv⟩
  replace h1 : user.is_active = true := by
    cases h : user.is_active with
    | false => exact absurd h h1
    | true => rfl
  by_cases h2 : amount ≤ 0
  · rw [show transfer db user toA amount d f =
        ⟨db, .err 400 "INVALID_AMOUNT" "Amount must be positive", []⟩ from by
      simp [transfer, h1, h2]]
    exact ⟨hwf, hinv⟩
  replace h2 : 0 < amount := lt_of_not_le h2
  cases hrec : db.profiles.find? (fun p => p.account_number = toA) with
  | none =>
    rw [show transfer db user toA amount d f =
        ⟨db, .err 400 "ACCOUNT_NOT_FOUND" "Recipient account not found", []⟩ from by
      simp [transfer, h1, not_le.mpr h2, hrec]]
    exact ⟨hwf, hinv⟩
  | some recipient =>
  by_cases h3 : recipient.is_active = false
  · rw [show transfer db user toA amount d f =
        ⟨db, .err 400 "RECIPIENT_INACTIVE" "Recipient account is not active", []⟩ from by
      simp [transfer, h1, not_le.mpr h2, hrec, h3]]
    exact ⟨hwf, hinv⟩
  replace h3 : recipient.is_active = true := by
    cases h : recipient.is_active with
    | false => exact absurd h h3
    | true => rfl
  by_cases h4 : recipient.id = user.id
  · rw [show transfer db user toA amount d f =
        ⟨db, .err 400 "SELF_TRANSFER" "Cannot transfer to your own account", []⟩ from by
      simp [transfer, h1, not_le.mpr h2, hrec, h3, h4]]
    exact ⟨hwf, hinv⟩
  cases hsnd : db.profiles.find? (fun p => p.id = user.id) with
  | none =>
    rw [show transfer db user toA amount d f =
        ⟨db, .err 400 "ACCOUNT_NOT_FOUND" "Failed to fetch sender account", []⟩ from by
      simp [transfer, h1, not_le.mpr h2, hrec, h3, h4, hsnd]]
    exact ⟨hwf, hinv⟩
  | some senderProfile =>
  by_cases h5 : senderProfile.balance < amount
  · rw [show transfer db user toA amount d f =
        ⟨db, .err 400 "INSUFFICIENT_FUNDS" "Insufficient funds", []⟩ from by
      simp [transfer, h1, not_le.mpr h2, hrec, h3, h4, hsnd, h5]]
    exact ⟨hwf, hinv⟩
  rw [transfer_validated db user recipient senderProfile toA amount d f
    h1 h2 hrec h3 h4 hsnd h5]
  exact transferSaga_preserves init db user recipient senderProfile toA amount d f
    hwf hinv (find?_acct_spec hrec).1 hsnd h4 hcomp

lemma runOp_preserves (init : Nat → Int) (db : DB) (op : Op)
    (hwf : db.wf) (hinv : BalInv init db) (hgood : op.goodComp) :
    (runOp db op).wf ∧ BalInv init (runOp db op) := by
  cases op with
  | movement uid ty amount dd toA txT ts rnd f =>
    simp only [runOp]
    cases hfind : db.profiles.find? (fun p => p.id = uid) with
    | none => exact ⟨hwf, hinv⟩
    | some user =>
      exact createTransaction_preserves init db user ty amount dd toA txT ts rnd f
        hwf hinv hgood
  | xfer uid toA amount dd f =>
    simp only [runOp]
    cases hfind : db.profiles.find? (fun p => p.id = uid) with
    | none => exact ⟨hwf, hinv⟩
    | some user =>
      exact transfer_preserves init db user toA amount dd f hwf hinv hgood

lemma runHistory_preserves (init : Nat → Int) (ops : List Op) :
    ∀ db : DB, db.wf → BalInv init db → (∀ op ∈ ops, op.goodComp) →
      (runHistory db ops).wf ∧ BalInv init (runHistory db ops) := by
  induction ops with
  | nil => exact fun db hwf hinv _ => ⟨hwf, hinv⟩
  | cons op rest ih =>
    intro db hwf hinv hgood
    have hstep := runOp_preserves init db op hwf hinv
      (hgood op (List.mem_cons_self op rest))
    exact ih (runOp db op) hstep.1 hstep.2
      (fun o ho => hgood o (List.mem_cons_of_mem op ho))

lemma initBal_of_mem {db : DB} (hpair : db.profiles.Pairwise fun p q => p.id ≠ q.id)
    {p : Profile} (hp : p ∈ db.profiles) : initBal db p.id = p.balance := by
  unfold initBal
  cases hfind : db.profiles.find? (fun x => x.id = p.id) with
  | none =>
    exfalso
    have := List.find?_eq_none.mp hfind p hp
    simp at this
  | some q =>
    have hq := find?_id_spec hfind
    rw [pairwise_id_eq hpair hq.1 hp hq.2]
    rfl

/-! ## Concrete fixtures for witnesses and counterexamples -/

/-- Sender account X: balance 500, active. -/
def userX : Profile :=
  { id := 1, name := "X", email := "x@example.com", account_number := "RSX",
    balance := 500, is_active := true }

/-- Recipient account Y: balance 200, active. -/
def userY : Profile :=
  { id := 2, name := "Y", email := "y@example.com", account_number := "RSY",
    balance := 200, is_active := true }

/-- A not-yet-activated account. -/
def userZ : Profile :=
  { id := 3, name := "Z", email := "z@example.com", account_number := "RSZ",
    balance := 100000, is_active := false }

/-- A store holding X, Y and Z with an empty ledger. -/
def baseDB : DB := { profiles := [userX, userY, userZ], transactions := [], nextId := 100 }

/-- All-success failure-injection flags for the account-route transfer. -/
def allOk : TransferFlags := ⟨true, true, true, true, true, true, true⟩

/-! ## C9 -/

/-- C9: the balance-arithmetic function returns `c + a` for credit, `c - a`
for debit, and `c` unchanged for any other direction; in particular
`next_balance(100, 30, debit) = 70`, `next_balance(100, 30, credit) = 130`
and `next_balance(100, 30, unknown) = 100`. -/
theorem C9_calculateNewBalance (c a : Int) :
    calculateNewBalance c a "credit" = c + a ∧
    calculateNewBalance c a "debit" = c - a ∧
    (∀ ty : String, ty ≠ "credit" → ty ≠ "debit" → calculateNewBalance c a ty = c) ∧
    calculateNewBalance 100 30 "debit" = 70 ∧
    calculateNewBalance 100 30 "credit" = 130 ∧
    calculateNewBalance 100 30 "unknown" = 100 := by
  refine ⟨by simp [calculateNewBalance], by simp [calculateNewBalance], ?_, ?_, ?_, ?_⟩
  · intro ty hty1 hty2
    simp [calculateNewBalance, hty1, hty2]
  · simp [calculateNewBalance]
  · simp [calculateNewBalance]
  · simp [calculateNewBalance]

/-- C9 witness: the theorem evaluated at concrete inputs. -/
theorem C9_calculateNewBalance_witness :
    calculateNewBalance 100 30 "unknown" = 100 :=
  (C9_calculateNewBalance 100 30).2.2.1 "unknown" (by decide) (by decide)

/-! ## C5 -/

/-- C5: every Validator / precondition failure of the movement executor is
detected before any write: an inactive account yields ACCOUNT_INACTIVE and
an overdraft debit yields INSUFFICIENT_FUNDS, in both cases with the store
returned unchanged (zero writes). -/
theorem C5_validation_zero_writes (db : DB) (user : Profile) (ty : String)
    (amount : Int) (d toA : Option String) (txT ts rnd : String) (f : TxFlags) :
    (user.is_active = false →
      createTransaction db user ty amount d toA txT ts rnd f =
        (db, .err 403 "ACCOUNT_INACTIVE"
          "Account is not active. Please wait for activation to perform transactions.")) ∧
    (∀ profile : Profile, user.is_active = true → ty = "debit" → 0 < amount →
      validCategory txT →
      db.profiles.find? (fun p => p.id = user.id) = some profile →
      profile.balance < amount →
      createTransaction db user ty amount d toA txT ts rnd f =
        (db, .err 400 "INSUFFICIENT_FUNDS" "Insufficient funds")) := by
  constructor
  · intro h
    exact createTransaction_inactive db user ty amount d toA txT ts rnd f h
  · intro profile h1 h2 h3 h4 hfind h5
    exact createTransaction_insufficient db user ty amount d toA txT ts rnd f profile
      h1 h2 h3 h4 hfind h5

/-- C5 witness: an inactive account and an overdraft debit, each rejected
with the stated error and an unchanged store. -/
theorem C5_validation_zero_writes_witness :
    createTransaction baseDB userZ "debit" 50 none none "withdrawal" "T0" "R0"
        ⟨none, true, true⟩ =
      (baseDB, .err 403 "ACCOUNT_INACTIVE"
        "Account is not active. Please wait for activation to perform transactions.") ∧
    createTransaction baseDB userY "debit" 500 none none "withdrawal" "T0" "R0"
        ⟨none, true, true⟩ =
      (baseDB, .err 400 "INSUFFICIENT_FUNDS" "Insufficient funds") :=
  ⟨(C5_validation_zero_writes baseDB userZ "debit" 50 none none "withdrawal" "T0" "R0"
      ⟨none, true, true⟩).1 rfl,
   (C5_validation_zero_writes baseDB userY "debit" 500 none none "withdrawal" "T0" "R0"
      ⟨none, true, true⟩).2 userY rfl rfl (by decide) (Or.inr (Or.inl rfl)) (by decide)
      (by decide)⟩

/-! ## C4 -/

/-- C4 (code bug): when the balance update fails, the response of the
movement executor is identical whether the compensating delete succeeds or
fails — the code never checks the delete's result and emits the same
TRANSACTION_FAILED error in both cases, so no CompensationFailed outcome
distinguishable from TransactionFailed exists.  In the update-failure path
the collapsed response is exactly `err 400 TRANSACTION_FAILED`. -/
theorem C4_compensation_collapsed (db : DB) (user : Profile) (ty : String)
    (amount : Int) (d toA : Option String) (txT ts rnd : String)
    (ie : Option String) :
    ((createTransaction db user ty amount d toA txT ts rnd ⟨ie, false, false⟩).2 =
      (createTransaction db user ty amount d toA txT ts rnd ⟨ie, false, true⟩).2) ∧
    (∀ profile : Profile, user.is_active = true → (ty = "credit" ∨ ty = "debit") →
      0 < amount → validCategory txT →
      db.profiles.find? (fun p => p.id = user.id) = some profile →
      ¬ (ty = "debit" ∧ profile.balance < amount) →
      ∀ cd : Bool,
        (createTransaction db user ty amount d toA txT ts rnd ⟨none, false, cd⟩).2 =
          .err 400 "TRANSACTION_FAILED" "Transaction failed") := by
  constructor
  · by_cases h1 : user.is_active = false
    · rw [createTransaction_inactive db user ty amount d toA txT ts rnd _ h1,
        createTransaction_inactive db user ty amount d toA txT ts rnd _ h1]
    replace h1 : user.is_active = true := by
      cases h : user.is_active with
      | false => exact absurd h h1
      | true => rfl
    by_cases h2 : ty = "credit" ∨ ty = "debit"
    case neg =>
      rw [createTransaction_invalidType db user ty amount d toA txT ts rnd _ h1 h2,
        createTransaction_invalidType db user ty amount d toA txT ts rnd _ h1 h2]
    by_cases h3 : amount ≤ 0
    · rw [createTransaction_invalidAmount db user ty amount d toA txT ts rnd _ h1 h2 h3,
        createTransaction_invalidAmount db user ty amount d toA txT ts rnd _ h1 h2 h3]
    replace h3 : 0 < amount := lt_of_not_le h3
    by_cases h4 : validCategory txT
    case neg =>
      rw [createTransaction_invalidCategory db user ty amount d toA txT ts rnd _ h1 h2 h3 h4,
        createTransaction_invalidCategory db user ty amount d toA txT ts rnd _ h1 h2 h3 h4]
    cases hfind : db.profiles.find? (fun p => p.id = user.id) with
    | none =>
      rw [createTransaction_notFound db user ty amount d toA txT ts rnd _ h1 h2 h3 h4 hfind,
        createTransaction_notFound db user ty amount d toA txT ts rnd _ h1 h2 h3 h4 hfind]
    | some profile =>
    by_cases h5 : ty = "debit" ∧ profile.balance < amount
    · rw [createTransaction_insufficient db user ty amount d toA txT ts rnd _ profile
        h1 h5.1 h3 h4 hfind h5.2,
        createTransaction_insufficient db user ty amount d toA txT ts rnd _ profile
        h1 h5.1 h3 h4 hfind h5.2]
    cases ie with
    | some msg =>
      rw [createTransaction_insertErr db user ty amount d toA txT ts rnd msg false false
        profile h1 h2 h3 h4 hfind h5,
        createTransaction_insertErr db user ty amount d toA txT ts rnd msg false true
        profile h1 h2 h3 h4 hfind h5]
    | none =>
      rw [createTransaction_updateFail db user ty amount d toA txT ts rnd false profile
        h1 h2 h3 h4 hfind h5,
        createTransaction_updateFail db user ty amount d toA txT ts rnd true profile
        h1 h2 h3 h4 hfind h5]
  · intro profile h1 h2 h3 h4 hfind h5 cd
    rw [createTransaction_updateFail db user ty amount d toA txT ts rnd cd profile
      h1 h2 h3 h4 hfind h5]

/-- C4 witness: a concrete update-failure run in which both the failed and
the successful compensating delete yield the very same response. -/
theorem C4_compensation_collapsed_witness :
    ((createTransaction baseDB userX "debit" 50 none none "withdrawal" "T0" "R0"
        ⟨none, false, false⟩).2 =
      (createTransaction baseDB userX "debit" 50 none none "withdrawal" "T0" "R0"
        ⟨none, false, true⟩).2) ∧
    (createTransaction baseDB userX "debit" 50 none none "withdrawal" "T0" "R0"
        ⟨none, false, false⟩).2 =
      .err 400 "TRANSACTION_FAILED" "Transaction failed" :=
  ⟨(C4_compensation_collapsed baseDB userX "debit" 50 none none "withdrawal" "T0" "R0"
      none).1,
   (C4_compensation_collapsed baseDB userX "debit" 50 none none "withdrawal" "T0" "R0"
      none).2 userX rfl (Or.inr rfl) (by decide) (Or.inr (Or.inl rfl)) (by decide)
      (by decide) false⟩

/-! ## C8 -/

/-- C8 (code bug): when the movement insert fails at the store, the
executor surfaces the raw store error message to the caller as the response
body and performs no retry of reference generation or insertion — the store
is returned unchanged and exactly one insert was attempted. -/
theorem C8_raw_store_error_surfaced (db : DB) (user : Profile) (ty : String)
    (amount : Int) (d toA : Option String) (txT ts rnd msg : String)
    (uo cd : Bool) (profile : Profile)
    (h1 : user.is_active = true) (h2 : ty = "credit" ∨ ty = "debit")
    (h3 : 0 < amount) (h4 : validCategory txT)
    (hfind : db.profiles.find? (fun p => p.id = user.id) = some profile)
    (h5 : ¬ (ty = "debit" ∧ profile.balance < amount)) :
    createTransaction db user ty amount d toA txT ts rnd ⟨some msg, uo, cd⟩ =
      (db, .err 400 "TRANSACTION_FAILED" msg) :=
  createTransaction_insertErr db user ty amount d toA txT ts rnd msg uo cd profile
    h1 h2 h3 h4 hfind h5

/-- C8 witness: a uniqueness-violation store message is surfaced verbatim. -/
theorem C8_raw_store_error_surfaced_witness :
    createTransaction baseDB userX "debit" 50 none none "withdrawal" "T0" "R0"
        ⟨some "duplicate key value violates unique constraint", true, true⟩ =
      (baseDB, .err 400 "TRANSACTION_FAILED"
        "duplicate key value violates unique constraint") :=
  C8_raw_store_error_surfaced baseDB userX "debit" 50 none none "withdrawal" "T0" "R0"
    "duplicate key value violates unique constraint" true true userX rfl (Or.inr rfl)
    (by decide) (Or.inr (Or.inl rfl)) (by decide) (by decide)

/-! ## C2 -/

/-- C2: for every account and every serial history of movement-executor and
account-route transfer operations in which every compensation store call
succeeds, the account's balance after the history equals its initial
balance plus the sum of signed amounts (credit positive, debit negative) of
all completed movements recorded against it. -/
theorem C2_serial_ledger_invariant (db0 : DB) (ops : List Op)
    (hwf : db0.wf) (hempty : db0.transactions = [])
    (hgood : ∀ op ∈ ops, op.goodComp) :
    ∀ p ∈ (runHistory db0 ops).profiles,
      p.balance = initBal db0 p.id + signedSum (runHistory db0 ops).transactions p.id := by
  have hbase : BalInv (initBal db0) db0 := by
    intro p hp
    rw [hempty, signedSum_nil, initBal_of_mem hwf.2 hp]
    ring
  exact (runHistory_preserves (initBal db0) ops db0 hwf hbase hgood).2

/-- C2 witness: after the concrete two-operation history (a 50 deposit by
X, then a 150 transfer X to Y) the row for account X holds balance 400,
which equals X's initial balance plus the signed sum of the completed
movements recorded against X. -/
theorem C2_serial_ledger_invariant_witness :
    ({ userX with balance := 400 } : Profile).balance =
      initBal baseDB ({ userX with balance := 400 } : Profile).id +
        signedSum (runHistory baseDB
          [Op.movement 1 "credit" 50 none none "deposit" "T0" "R0" ⟨none, true, true⟩,
           Op.xfer 1 "RSY" 150 none allOk]).transactions
          ({ userX with balance := 400 } : Profile).id :=
  C2_serial_ledger_invariant baseDB
    [Op.movement 1 "credit" 50 none none "deposit" "T0" "R0" ⟨none, true, true⟩,
     Op.xfer 1 "RSY" 150 none allOk]
    ⟨by intro m hm; simp [baseDB] at hm, by
      simp [baseDB, userX, userY, userZ]⟩
    rfl
    (by
      intro op hop
      rcases List.mem_cons.mp hop with rfl | hop
      · exact rfl
      rcases List.mem_cons.mp hop with rfl | hop
      · exact ⟨rfl, rfl, rfl⟩
      · cases hop)
    { userX with balance := 400 }
    (by decide)

/-! ## C1 -/

/-- C1 counterexample: at a concrete step-6 failure (recipient balance
update fails, all compensations succeed), the compensation calls are issued
in the order of execution of the compensated steps — delete sender debit,
delete recipient credit, restore sender balance — and NOT in reverse order
of execution (which would be: restore sender balance, delete recipient
credit, delete sender debit). -/
theorem C1_counterexample :
    (transfer baseDB userX "RSY" 150 none
        ⟨true, true, true, false, true, true, true⟩).calls =
      [.insertTx (debitRow userX "RSY" 150 none),
       .insertTx (creditRow userY userX 150 none),
       .updateBal 1 350, .updateBal 2 350,
       .deleteTx 100, .deleteTx 101, .updateBal 1 500] ∧
    (transfer baseDB userX "RSY" 150 none
        ⟨true, true, true, false, true, true, true⟩).calls ≠
      [.insertTx (debitRow userX "RSY" 150 none),
       .insertTx (creditRow userY userX 150 none),
       .updateBal 1 350, .updateBal 2 350,
       .updateBal 1 500, .deleteTx 101, .deleteTx 100] := by
  constructor
  · decide
  · decide

/-- C1 amended: whenever steps 3-5 of the account-route transfer succeed
and step 6 (the recipient balance update) fails, all prior successful steps
are compensated before returning failure — in the order of their execution,
not in reverse — and afterwards the sender debit movement and the recipient
credit movement are deleted, the sender balance is restored to its
pre-transfer value and the recipient balance is unchanged: the final store
equals the pre-transfer store on both tables. -/
theorem C1_step6_compensation (db : DB) (user recipient senderProfile : Profile)
    (toA : String) (amount : Int) (d : Option String)
    (hwf : db.wf)
    (hact : user.is_active = true) (hamt : 0 < amount)
    (hrec : db.profiles.find? (fun p => p.account_number = toA) = some recipient)
    (hrecact : recipient.is_active = true) (hrecne : recipient.id ≠ user.id)
    (hsnd : db.profiles.find? (fun p => p.id = user.id) = some senderProfile)
    (hbal : ¬ senderProfile.balance < amount) :
    (transfer db user toA amount d ⟨true, true, true, false, true, true, true⟩).resp =
      .err 400 "TRANSACTION_FAILED" "Failed to update recipient balance" ∧
    (transfer db user toA amount d
        ⟨true, true, true, false, true, true, true⟩).db.transactions =
      db.transactions ∧
    (transfer db user toA amount d
        ⟨true, true, true, false, true, true, true⟩).db.profiles = db.profiles ∧
    (transfer db user toA amount d ⟨true, true, true, false, true, true, true⟩).calls =
      [.insertTx (debitRow user toA amount d),
       .insertTx (creditRow recipient senderProfile amount d),
       .updateBal user.id (senderProfile.balance - amount),
       .updateBal recipient.id (recipient.balance + amount),
       .deleteTx db.nextId, .deleteTx (db.nextId + 1),
       .updateBal user.id senderProfile.balance] := by
  rw [transfer_validated db user recipient senderProfile toA amount d _
    hact hamt hrec hrecact hrecne hsnd hbal]
  rw [transferSaga_recipFail]
  refine ⟨rfl, ?_, ?_, rfl⟩
  · simp only [setBalance, deleteTx, insertTx, List.filter_append]
    rw [filter_id_ne_of_lt hwf.1,
      filter_id_ne_of_lt (fun m hm => Nat.lt_succ_of_lt (hwf.1 m hm))]
    simp [List.filter]
  · simp only [setBalance, deleteTx, insertTx]
    exact setBalance_restore_profiles db.profiles user.id _ senderProfile hwf.2 hsnd

/-- C1 witness: the amended theorem evaluated at the concrete fixture
(X balance 500 transfers 150 to Y balance 200; step 6 fails). -/
theorem C1_step6_compensation_witness :
    (transfer baseDB userX "RSY" 150 none
        ⟨true, true, true, false, true, true, true⟩).db.transactions =
      baseDB.transactions ∧
    (transfer baseDB userX "RSY" 150 none
        ⟨true, true, true, false, true, true, true⟩).db.profiles = baseDB.profiles :=
  ⟨(C1_step6_compensation baseDB userX userY userX "RSY" 150 none
      ⟨by intro m hm; simp [baseDB] at hm, by simp [baseDB, userX, userY, userZ]⟩
      rfl (by decide) (by decide) rfl (by decide) (by decide) (by decide)).2.1,
   (C1_step6_compensation baseDB userX userY userX "RSY" 150 none
      ⟨by intro m hm; simp [baseDB] at hm, by simp [baseDB, userX, userY, userZ]⟩
      rfl (by decide) (by decide) rfl (by decide) (by decide) (by decide)).2.2.1⟩

/-- Every movement row added to the store by the movement executor carries
the caller's user id, the requested direction and amount, status
`completed`, the requested category, and the generated reference. -/
lemma createTransaction_new_movement (db : DB) (user : Profile) (ty : String)
    (amount : Int) (d toA : Option String) (txT ts rnd : String) (f : TxFlags) :
    ∀ m ∈ (createTransaction db user ty amount d toA txT ts rnd f).1.transactions,
      m ∉ db.transactions →
      m.user_id = user.id ∧ m.type = ty ∧ m.amount = amount ∧
      m.status = "completed" ∧ m.transaction_type = some txT ∧
      m.reference = some (generateReference txT ts rnd) := by
  intro m hm hnot
  by_cases h1 : user.is_active = false
  · rw [createTransaction_inactive db user ty amount d toA txT ts rnd _ h1] at hm
    exact absurd hm hnot
  replace h1 : user.is_active = true := by
    cases h : user.is_active with
    | false => exact absurd h h1
    | true => rfl
  by_cases h2 : ty = "credit" ∨ ty = "debit"
  case neg =>
    rw [createTransaction_invalidType db user ty amount d toA txT ts rnd _ h1 h2] at hm
    exact absurd hm hnot
  by_cases h3 : amount ≤ 0
  · rw [createTransaction_invalidAmount db user ty amount d toA txT ts rnd _ h1 h2 h3] at hm
    exact absurd hm hnot
  replace h3 : 0 < amount := lt_of_not_le h3
  by_cases h4 : validCategory txT
  case neg =>
    rw [createTransaction_invalidCategory db user ty amount d toA txT ts rnd _
      h1 h2 h3 h4] at hm
    exact absurd hm hnot
  cases hfind : db.profiles.find? (fun p => p.id = user.id) with
  | none =>
    rw [createTransaction_notFound db user ty amount d toA txT ts rnd _
      h1 h2 h3 h4 hfind] at hm
    exact absurd hm hnot
  | some profile =>
  by_cases h5 : ty = "debit" ∧ profile.balance < amount
  · rw [createTransaction_insufficient db user ty amount d toA txT ts rnd _ profile
      h1 h5.1 h3 h4 hfind h5.2] at hm
    exact absurd hm hnot
  obtain ⟨ie, uo, cd⟩ := f
  cases ie with
  | some msg =>
    rw [createTransaction_insertErr db user ty amount d toA txT ts rnd msg uo cd
      profile h1 h2 h3 h4 hfind h5] at hm
    exact absurd hm hnot
  | none =>
  have hmem : m ∈ db.transactions ++
      [{ txRow user ty amount d toA txT ts rnd with id := db.nextId }] := by
    cases uo with
    | true =>
      rw [createTransaction_success db user ty amount d toA txT ts rnd cd profile
        h1 h2 h3 h4 hfind h5] at hm
      simpa [setBalance, insertTx] using hm
    | false =>
      rw [createTransaction_updateFail db user ty amount d toA txT ts rnd cd profile
        h1 h2 h3 h4 hfind h5] at hm
      cases cd with
      | true =>
        simp only [ite_true, deleteTx, insertTx] at hm
        exact List.mem_of_mem_filter hm
      | false =>
        simpa [insertTx] using hm
  rcases List.mem_append.mp hmem with hmem | hmem
  · exact absurd hmem hnot
  · rcases List.mem_singleton.mp hmem with rfl
    exact ⟨rfl, rfl, rfl, rfl, rfl, rfl⟩

/-- Every movement row added to the store by the account-route transfer is
one of the two transfer rows: it carries status `completed`, no category
and no reference. -/
lemma transfer_new_movements (db : DB) (user : Profile) (toA : String)
    (amount : Int) (d : Option String) (f : TransferFlags) :
    ∀ m ∈ (transfer db user toA amount d f).db.transactions,
      m ∉ db.transactions →
      m.status = "completed" ∧ m.transaction_type = none ∧ m.reference = none := by
  intro m hm hnot
  by_cases h1 : user.is_active = false
  · rw [transfer_inactive db user toA amount d f h1] at hm
    exact absurd hm hnot
  replace h1 : user.is_active = true := by
    cases h : user.is_active with
    | false => exact absurd h h1
    | true => rfl
  by_cases h2 : amount ≤ 0
  · rw [show transfer db user toA amount d f =
        ⟨db, .err 400 "INVALID_AMOUNT" "Amount must be positive", []⟩ from by
      simp [transfer, h1, h2]] at hm
    exact absurd hm hnot
  replace h2 : 0 < amount := lt_of_not_le h2
  cases hrec : db.profiles.find? (fun p => p.account_number = toA) with
  | none =>
    rw [show transfer db user toA amount d f =
        ⟨db, .err 400 "ACCOUNT_NOT_FOUND" "Recipient account not found", []⟩ from by
      simp [transfer, h1, not_le.mpr h2, hrec]] at hm
    exact absurd hm hnot
  | some recipient =>
  by_cases h3 : recipient.is_active = false
  · rw [show transfer db user toA amount d f =
        ⟨db, .err 400 "RECIPIENT_INACTIVE" "Recipient account is not active", []⟩ from by
      simp [transfer, h1, not_le.mpr h2, hrec, h3]] at hm
    exact absurd hm hnot
  replace h3 : recipient.is_active = true := by
    cases h : recipient.is_active with
    | false => exact absurd h h3
    | true => rfl
  by_cases h4 : recipient.id = user.id
  · rw [show transfer db user toA amount d f =
        ⟨db, .err 400 "SELF_TRANSFER" "Cannot transfer to your own account", []⟩ from by
      simp [transfer, h1, not_le.mpr h2, hrec, h3, h4]] at hm
    exact absurd hm hnot
  cases hsnd : db.profiles.find? (fun p => p.id = user.id) with
  | none =>
    rw [show transfer db user toA amount d f =
        ⟨db, .err 400 "ACCOUNT_NOT_FOUND" "Failed to fetch sender account", []⟩ from by
      simp [transfer, h1, not_le.mpr h2, hrec, h3, h4, hsnd]] at hm
    exact absurd hm hnot
  | some senderProfile =>
  by_cases h5 : senderProfile.balance < amount
  · rw [show transfer db user toA amount d f =
        ⟨db, .err 400 "INSUFFICIENT_FUNDS" "Insufficient funds", []⟩ from by
      simp [transfer, h1, not_le.mpr h2, hrec, h3, h4, hsnd, h5]] at hm
    exact absurd hm hnot
  rw [transfer_validated db user recipient senderProfile toA amount d f
    h1 h2 hrec h3 h4 hsnd h5] at hm
  obtain ⟨di, ci, su, ru, cd1, cd2, cr⟩ := f
  have hmem : m ∈ (db.transactions ++
      [{ debitRow user toA amount d with id := db.nextId }]) ++
      [{ creditRow recipient senderProfile amount d with id := db.nextId + 1 }] := by
    cases di with
    | false =>
      rw [transferSaga_debitFail] at hm
      exact List.mem_append_left _ (List.mem_append_left _ hm)
    | true =>
    cases ci with
    | false =>
      cases cd1 with
      | true =>
        rw [transferSaga_creditFail] at hm
        simp only [deleteTx, insertTx] at hm
        exact List.mem_append_left _ (List.mem_of_mem_filter hm)
      | false =>
        rw [show transferSaga db user recipient senderProfile toA amount d
            ⟨true, false, su, ru, false, cd2, cr⟩ =
            ⟨(insertTx db (debitRow user toA amount d)).1,
             .err 400 "TRANSACTION_FAILED" "Failed to create credit transaction",
             [.insertTx (debitRow user toA amount d),
              .insertTx (creditRow recipient senderProfile amount d),
              .deleteTx db.nextId]⟩ from rfl] at hm
        simp only [insertTx] at hm
        exact List.mem_append_left _ hm
    | true =>
    cases su with
    | false =>
      cases cd1 with
      | true =>
        cases cd2 with
        | true =>
          rw [transferSaga_senderFail] at hm
          simp only [deleteTx, insertTx] at hm
          exact List.mem_of_mem_filter (List.mem_of_mem_filter hm)
        | false =>
          rw [show transferSaga db user recipient senderProfile toA amount d
              ⟨true, true, false, ru, true, false, cr⟩ =
              ⟨deleteTx (insertTx (insertTx db (debitRow user toA amount d)).1
                  (creditRow recipient senderProfile amount d)).1 db.nextId,
               .err 400 "TRANSACTION_FAILED" "Failed to update sender balance",
               [.insertTx (debitRow user toA amount d),
                .insertTx (creditRow recipient senderProfile amount d),
                .updateBal user.id (senderProfile.balance - amount),
                .deleteTx db.nextId, .deleteTx (db.nextId + 1)]⟩ from rfl] at hm
          simp only [deleteTx, insertTx] at hm
          exact List.mem_of_mem_filter hm
      | false =>
        cases cd2 with
        | true =>
          rw [show transferSaga db user recipient senderProfile toA amount d
              ⟨true, true, false, ru, false, true, cr⟩ =
              ⟨deleteTx (insertTx (insertTx db (debitRow user toA amount d)).1
                  (creditRow recipient senderProfile amount d)).1 (db.nextId + 1),
               .err 400 "TRANSACTION_FAILED" "Failed to update sender balance",
               [.insertTx (debitRow user toA amount d),
                .insertTx (creditRow recipient senderProfile amount d),
                .updateBal user.id (senderProfile.balance - amount),
                .deleteTx db.nextId, .deleteTx (db.nextId + 1)]⟩ from rfl] at hm
          simp only [deleteTx, insertTx] at hm
          exact List.mem_of_mem_filter hm
        | false =>
          rw [show transferSaga db user recipient senderProfile toA amount d
              ⟨true, true, false, ru, false, false, cr⟩ =
              ⟨(insertTx (insertTx db (debitRow user toA amount d)).1
                  (creditRow recipient senderProfile amount d)).1,
               .err 400 "TRANSACTION_FAILED" "Failed to update sender balance",
               [.insertTx (debitRow user toA amount d),
                .insertTx (creditRow recipient senderProfile amount d),
                .updateBal user.id (senderProfile.balance - amount),
                .deleteTx db.nextId, .deleteTx (db.nextId + 1)]⟩ from rfl] at hm
          simpa [insertTx] using hm
    | true =>
    cases ru with
    | false =>
      cases cd1 with
      | true =>
        cases cd2 with
        | true =>
          cases cr with
          | true =>
            rw [transferSaga_recipFail] at hm
            simp only [setBalance, deleteTx, insertTx] at hm
            exact List.mem_of_mem_filter (List.mem_of_mem_filter hm)
          | false =>
            rw [show transferSaga db user recipient senderProfile toA amount d
                ⟨true, true, true, false, true, true, false⟩ =
                ⟨deleteTx (deleteTx (setBalance (insertTx (insertTx db
                    (debitRow user toA amount d)).1
                    (creditRow recipient senderProfile amount d)).1 user.id
                    (senderProfile.balance - amount)) db.nextId) (db.nextId + 1),
                 .err 400 "TRANSACTION_FAILED" "Failed to update recipient balance",
                 [.insertTx (debitRow user toA amount d),
                  .insertTx (creditRow recipient senderProfile amount d),
                  .updateBal user.id (senderProfile.balance - amount),
                  .updateBal recipient.id (recipient.balance + amount),
                  .deleteTx db.nextId, .deleteTx (db.nextId + 1),
                  .updateBal user.id senderProfile.balance]⟩ from rfl] at hm
            simp only [setBalance, deleteTx, insertTx] at hm
            exact List.mem_of_mem_filter (List.mem_of_mem_filter hm)
        | false =>
          cases cr with
          | true =>
            rw [show transferSaga db user recipient senderProfile toA amount d
                ⟨true, true, true, false, true, false, true⟩ =
                ⟨setBalance (deleteTx (setBalance (insertTx (insertTx db
                    (debitRow user toA amount d)).1
                    (creditRow recipient senderProfile amount d)).1 user.id
                    (senderProfile.balance - amount)) db.nextId)
                   user.id senderProfile.balance,
                 .err 400 "TRANSACTION_FAILED" "Failed to update recipient balance",
                 [.insertTx (debitRow user toA amount d),
                  .insertTx (creditRow recipient senderProfile amount d),
                  .updateBal user.id (senderProfile.balance - amount),
                  .updateBal recipient.id (recipient.balance + amount),
                  .deleteTx db.nextId, .deleteTx (db.nextId + 1),
                  .updateBal user.id senderProfile.balance]⟩ from rfl] at hm
            simp only [setBalance, deleteTx, insertTx] at hm
            exact List.mem_of_mem_filter hm
          | false =>
            rw [show transferSaga db user recipient senderProfile toA amount d
                ⟨true, true, true, false, true, false, false⟩ =
                ⟨deleteTx (setBalance (insertTx (insertTx db
                    (debitRow user toA amount d)).1
                    (creditRow recipient senderProfile amount d)).1 user.id
                    (senderProfile.balance - amount)) db.nextId,
                 .err 400 "TRANSACTION_FAILED" "Failed to update recipient balance",
                 [.insertTx (debitRow user toA amount d),
                  .insertTx (creditRow recipient senderProfile amount d),
                  .updateBal user.id (senderProfile.balance - amount),
                  .updateBal recipient.id (recipient.balance + amount),
                  .deleteTx db.nextId, .deleteTx (db.nextId + 1),
                  .updateBal user.id senderProfile.balance]⟩ from rfl] at hm
            simp only [setBalance, deleteTx, insertTx] at hm
            exact List.mem_of_mem_filter hm
      | false =>
        cases cd2 with
        | true =>
          cases cr with
          | true =>
            rw [show transferSaga db user recipient senderProfile toA amount d
                ⟨true, true, true, false, false, true, true⟩ =
                ⟨setBalance (deleteTx (setBalance (insertTx (insertTx db
                    (debitRow user toA amount d)).1
                    (creditRow recipient senderProfile amount d)).1 user.id
                    (senderProfile.balance - amount)) (db.nextId + 1))
                   user.id senderProfile.balance,
                 .err 400 "TRANSACTION_FAILED" "Failed to update recipient balance",
                 [.insertTx (debitRow user toA amount d),
                  .insertTx (creditRow recipient senderProfile amount d),
                  .updateBal user.id (senderProfile.balance - amount),
                  .updateBal recipient.id (recipient.balance + amount),
                  .deleteTx db.nextId, .deleteTx (db.nextId + 1),
                  .updateBal user.id senderProfile.balance]⟩ from rfl] at hm
            simp only [setBalance, deleteTx, insertTx] at hm
            exact List.mem_of_mem_filter hm
          | false =>
            rw [show transferSaga db user recipient senderProfile toA amount d
                ⟨true, true, true, false, false, true, false⟩ =
                ⟨deleteTx (setBalance (insertTx (insertTx db
                    (debitRow user toA amount d)).1
                    (creditRow recipient senderProfile amount d)).1 user.id
                    (senderProfile.balance - amount)) (db.nextId + 1),
                 .err 400 "TRANSACTION_FAILED" "Failed to update recipient balance",
                 [.insertTx (debitRow user toA amount d),
                  .insertTx (creditRow recipient senderProfile amount d),
                  .updateBal user.id (senderProfile.balance - amount),
                  .updateBal recipient.id (recipient.balance + amount),
                  .deleteTx db.nextId, .deleteTx (db.nextId + 1),
                  .updateBal user.id senderProfile.balance]⟩ from rfl] at hm
            simp only [setBalance, deleteTx, insertTx] at hm
            exact List.mem_of_mem_filter hm
        | false =>
          cases cr with
          | true =>
            rw [show transferSaga db user recipient senderProfile toA amount d
                ⟨true, true, true, false, false, false, true⟩ =
                ⟨setBalance (setBalance (insertTx (insertTx db
                    (debitRow user toA amount d)).1
                    (creditRow recipient senderProfile amount d)).1 user.id
                    (senderProfile.balance - amount))
                   user.id senderProfile.balance,
                 .err 400 "TRANSACTION_FAILED" "Failed to update recipient balance",
                 [.insertTx (debitRow user toA amount d),
                  .insertTx (creditRow recipient senderProfile amount d),
                  .updateBal user.id (senderProfile.balance - amount),
                  .updateBal recipient.id (recipient.balance + amount),
                  .deleteTx db.nextId, .deleteTx (db.nextId + 1),
                  .updateBal user.id senderProfile.balance]⟩ from rfl] at hm
            simpa [setBalance, insertTx] using hm
          | false =>
            rw [show transferSaga db user recipient senderProfile toA amount d
                ⟨true, true, true, false, false, false, false⟩ =
                ⟨setBalance (insertTx (insertTx db
                    (debitRow user toA amount d)).1
                    (creditRow recipient senderProfile amount d)).1 user.id
                    (senderProfile.balance - amount),
                 .err 400 "TRANSACTION_FAILED" "Failed to update recipient balance",
                 [.insertTx (debitRow user toA amount d),
                  .insertTx (creditRow recipient senderProfile amount d),
                  .updateBal user.id (senderProfile.balance - amount),
                  .updateBal recipient.id (recipient.balance + amount),
                  .deleteTx db.nextId, .deleteTx (db.nextId + 1),
                  .updateBal user.id senderProfile.balance]⟩ from rfl] at hm
            simpa [setBalance, insertTx] using hm
    | true =>
      rw [transferSaga_success] at hm
      simpa [setBalance, insertTx] using hm
  rcases List.mem_append.mp hmem with hmem | hmem
  · rcases List.mem_append.mp hmem with hmem | hmem
    · exact absurd hmem hnot
    · rcases List.mem_singleton.mp hmem with rfl
      exact ⟨rfl, rfl, rfl⟩
  · rcases List.mem_singleton.mp hmem with rfl
    exact ⟨rfl, rfl, rfl⟩

/-! ## C3 -/

/-- C3 counterexample: a successful transactions-route `createTransfer`
(HTTP POST /transactions/transfer) writes exactly one debit movement on the
sender and NO credit movement on the recipient, falsifying the claim that
every transfer path produces either both movements or none. -/
theorem C3_counterexample :
    ¬ ((((createTransfer baseDB userX 150 none (some "RSY") "T0" "R0"
            ⟨none, true, true⟩).1.transactions.filter
              fun m => m.user_id = userX.id ∧ m.type = "debit").length = 1 ∧
        ((createTransfer baseDB userX 150 none (some "RSY") "T0" "R0"
            ⟨none, true, true⟩).1.transactions.filter
              fun m => m.user_id = userY.id ∧ m.type = "credit").length = 1) ∨
       (createTransfer baseDB userX 150 none (some "RSY") "T0" "R0"
          ⟨none, true, true⟩).1.transactions = baseDB.transactions) := by
  decide

/-- C3 amended: the ACCOUNT-route transfer (with compensation calls
succeeding) produces either no movement at all or exactly one sender debit
row and one recipient credit row, each carrying the other party's account
number in its counterparty field; the TRANSACTIONS-route `createTransfer`,
by contrast, only ever adds debit movements belonging to the calling
sender — it never writes a recipient credit movement. -/
theorem C3_transfer_movement_pairing (db : DB) (user : Profile) (toA : String)
    (amount : Int) (d : Option String) (f : TransferFlags)
    (hwf : db.wf)
    (hcomp : f.compDeleteDebitOk = true ∧ f.compDeleteCreditOk = true ∧
      f.compRestoreSenderOk = true) :
    ((transfer db user toA amount d f).db.transactions = db.transactions ∨
      ∃ recipient senderProfile : Profile,
        db.profiles.find? (fun p => p.account_number = toA) = some recipient ∧
        db.profiles.find? (fun p => p.id = user.id) = some senderProfile ∧
        recipient.account_number = toA ∧
        (debitRow user toA amount d).to_account_number = some toA ∧
        (creditRow recipient senderProfile amount d).to_account_number =
          some senderProfile.account_number ∧
        (transfer db user toA amount d f).db.transactions =
          db.transactions ++
            [{ debitRow user toA amount d with id := db.nextId },
             { creditRow recipient senderProfile amount d with id := db.nextId + 1 }]) ∧
    (∀ (dbx : DB) (usr : Profile) (amt : Int) (dd toAx : Option String)
       (tsx rndx : String) (fx : TxFlags),
      ∀ m ∈ (createTransfer dbx usr amt dd toAx tsx rndx fx).1.transactions,
        m ∉ dbx.transactions → m.user_id = usr.id ∧ m.type = "debit") := by
  constructor
  · by_cases h1 : user.is_active = false
    · rw [transfer_inactive db user toA amount d f h1]
      exact Or.inl rfl
    replace h1 : user.is_active = true := by
      cases h : user.is_active with
      | false => exact absurd h h1
      | true => rfl
    by_cases h2 : amount ≤ 0
    · rw [show transfer db user toA amount d f =
          ⟨db, .err 400 "INVALID_AMOUNT" "Amount must be positive", []⟩ from by
        simp [transfer, h1, h2]]
      exact Or.inl rfl
    replace h2 : 0 < amount := lt_of_not_le h2
    cases hrec : db.profiles.find? (fun p => p.account_number = toA) with
    | none =>
      rw [show transfer db user toA amount d f =
          ⟨db, .err 400 "ACCOUNT_NOT_FOUND" "Recipient account not found", []⟩ from by
        simp [transfer, h1, not_le.mpr h2, hrec]]
      exact Or.inl rfl
    | some recipient =>
    by_cases h3 : recipient.is_active = false
    · rw [show transfer db user toA amount d f =
          ⟨db, .err 400 "RECIPIENT_INACTIVE" "Recipient account is not active", []⟩ from by
        simp [transfer, h1, not_le.mpr h2, hrec, h3]]
      exact Or.inl rfl
    replace h3 : recipient.is_active = true := by
      cases h : recipient.is_active with
      | false => exact absurd h h3
      | true => rfl
    by_cases h4 : recipient.id = user.id
    · rw [show transfer db user toA amount d f =
          ⟨db, .err 400 "SELF_TRANSFER" "Cannot transfer to your own account", []⟩ from by
        simp [transfer, h1, not_le.mpr h2, hrec, h3, h4]]
      exact Or.inl rfl
    cases hsnd : db.profiles.find? (fun p => p.id = user.id) with
    | none =>
      rw [show transfer db user toA amount d f =
          ⟨db, .err 400 "ACCOUNT_NOT_FOUND" "Failed to fetch sender account", []⟩ from by
        simp [transfer, h1, not_le.mpr h2, hrec, h3, h4, hsnd]]
      exact Or.inl rfl
    | some senderProfile =>
    by_cases h5 : senderProfile.balance < amount
    · rw [show transfer db user toA amount d f =
          ⟨db, .err 400 "INSUFFICIENT_FUNDS" "Insufficient funds", []⟩ from by
        simp [transfer, h1, not_le.mpr h2, hrec, h3, h4, hsnd, h5]]
      exact Or.inl rfl
    rw [transfer_validated db user recipient senderProfile toA amount d f
      h1 h2 hrec h3 h4 hsnd h5]
    obtain ⟨di, ci, su, ru, cd1, cd2, cr⟩ := f
    obtain ⟨hc1, hc2, hc3⟩ := hcomp
    replace hc1 : cd1 = true := hc1
    replace hc2 : cd2 = true := hc2
    replace hc3 : cr = true := hc3
    subst hc1; subst hc2; subst hc3
    cases di with
    | false =>
      rw [transferSaga_debitFail]
      exact Or.inl rfl
    | true =>
    cases ci with
    | false =>
      rw [transferSaga_creditFail]
      rw [show db.nextId = (insertTx db (debitRow user toA amount d)).2.id from rfl,
        deleteTx_insertTx db _ hwf.1]
      exact Or.inl rfl
    | true =>
    cases su with
    | false =>
      rw [transferSaga_senderFail]
      rw [show (deleteTx (deleteTx (insertTx (insertTx db (debitRow user toA amount d)).1
            (creditRow recipient senderProfile amount d)).1 db.nextId) (db.nextId + 1)) =
          (deleteTx (deleteTx (insertTx (insertTx db (debitRow user toA amount d)).1
            (creditRow recipient senderProfile amount d)).1
            (insertTx db (debitRow user toA amount d)).2.id)
            (insertTx (insertTx db (debitRow user toA amount d)).1
              (creditRow recipient senderProfile amount d)).2.id) from rfl,
        deleteTx2_insertTx2 db _ _ hwf.1]
      exact Or.inl rfl
    | true =>
    cases ru with
    | false =>
      rw [transferSaga_recipFail]
      refine Or.inl ?_
      simp only [setBalance, deleteTx, insertTx, List.filter_append]
      rw [filter_id_ne_of_lt hwf.1,
        filter_id_ne_of_lt (fun m hm => Nat.lt_succ_of_lt (hwf.1 m hm))]
      simp [List.filter]
    | true =>
      rw [transferSaga_success]
      refine Or.inr ⟨recipient, senderProfile, rfl, rfl,
        (find?_acct_spec hrec).2, rfl, rfl, ?_⟩
      simp [setBalance, insertTx]
  · intro dbx usr amt dd toAx tsx rndx fx m hm hnot
    cases toAx with
    | none =>
      rw [show createTransfer dbx usr amt dd none tsx rndx fx =
          (dbx, .err 400 "MISSING_RECIPIENT"
            "Recipient account number is required for transfers") from rfl] at hm
      exact absurd hm hnot
    | some toAv =>
      have := createTransaction_new_movement dbx usr "debit" amt
        (some (dd.getD ("Transfer to " ++ toAv))) (some toAv) "transfer" tsx rndx fx
        m hm hnot
      exact ⟨this.1, this.2.1⟩

/-- C3 witness: the amended theorem at the concrete fixture; the successful
account-route transfer appends exactly the debit/credit pair. -/
theorem C3_transfer_movement_pairing_witness :
    ((transfer baseDB userX "RSY" 150 none allOk).db.transactions =
        baseDB.transactions ∨
      ∃ recipient senderProfile : Profile,
        baseDB.profiles.find? (fun p => p.account_number = "RSY") = some recipient ∧
        baseDB.profiles.find? (fun p => p.id = userX.id) = some senderProfile ∧
        recipient.account_number = "RSY" ∧
        (debitRow userX "RSY" 150 none).to_account_number = some "RSY" ∧
        (creditRow recipient senderProfile 150 none).to_account_number =
          some senderProfile.account_number ∧
        (transfer baseDB userX "RSY" 150 none allOk).db.transactions =
          baseDB.transactions ++
            [{ debitRow userX "RSY" 150 none with id := baseDB.nextId },
             { creditRow recipient senderProfile 150 none with id := baseDB.nextId + 1 }]) ∧
    (∀ (dbx : DB) (usr : Profile) (amt : Int) (dd toAx : Option String)
       (tsx rndx : String) (fx : TxFlags),
      ∀ m ∈ (createTransfer dbx usr amt dd toAx tsx rndx fx).1.transactions,
        m ∉ dbx.transactions → m.user_id = usr.id ∧ m.type = "debit") :=
  C3_transfer_movement_pairing baseDB userX "RSY" 150 none allOk
    ⟨by intro m hm; simp [baseDB] at hm, by simp [baseDB, userX, userY, userZ]⟩
    ⟨rfl, rfl, rfl⟩

/-! ## C7 -/

/-- The store after one account-route transfer and two movement-executor
deposits generated with the same timestamp and random suffix. -/
def dbC7 : DB := runHistory baseDB
  [Op.xfer 1 "RSY" 150 none allOk,
   Op.movement 1 "credit" 50 none none "deposit" "T0" "R0" ⟨none, true, true⟩,
   Op.movement 1 "credit" 50 none none "deposit" "T0" "R0" ⟨none, true, true⟩]

/-- C7 counterexample: after a reachable serial history, the ledger holds
movement rows that carry NO reference (the two account-route transfer rows)
and two distinct movement rows that carry THE SAME reference (two deposits
whose references were generated from the same timestamp and random
suffix) — falsifying both halves of the claim. -/
theorem C7_counterexample :
    ¬ (∀ m ∈ dbC7.transactions, m.reference.isSome = true) ∧
    ¬ (∀ m ∈ dbC7.transactions, ∀ mm ∈ dbC7.transactions, m ≠ mm →
        ∀ r rr : String, m.reference = some r → mm.reference = some rr → r ≠ rr) := by
  constructor
  · decide
  · intro h
    have h2 : (2 : Nat) < dbC7.transactions.length := by decide
    have h3 : (3 : Nat) < dbC7.transactions.length := by decide
    have hne : dbC7.transactions.get ⟨2, h2⟩ ≠ dbC7.transactions.get ⟨3, h3⟩ := by
      intro heq
      have hid : (102 : Nat) = 103 := congrArg Movement.id heq
      exact absurd hid (by decide)
    have hr2 : (dbC7.transactions.get ⟨2, h2⟩).reference =
        some (generateReference "deposit" "T0" "R0") := rfl
    have hr3 : (dbC7.transactions.get ⟨3, h3⟩).reference =
        some (generateReference "deposit" "T0" "R0") := rfl
    exact h (dbC7.transactions.get ⟨2, h2⟩) (dbC7.transactions.get_mem 2 h2)
      (dbC7.transactions.get ⟨3, h3⟩) (dbC7.transactions.get_mem 3 h3) hne
      (generateReference "deposit" "T0" "R0") (generateReference "deposit" "T0" "R0")
      hr2 hr3 rfl

/-- C7 amended: every movement row written by the movement executor
`createTransaction` carries the generated reference
`{category prefix}-{timestamp}-{random}`, while the two movement rows
written by the account-route transfer carry no reference at all (and no
reference-uniqueness is enforced by the generator). -/
theorem C7_movement_references :
    (∀ (db : DB) (user : Profile) (ty : String) (amount : Int)
       (d toA : Option String) (txT ts rnd : String) (f : TxFlags),
      ∀ m ∈ (createTransaction db user ty amount d toA txT ts rnd f).1.transactions,
        m ∉ db.transactions → m.reference = some (generateReference txT ts rnd)) ∧
    (∀ (db : DB) (user : Profile) (toA : String) (amount : Int)
       (d : Option String) (f : TransferFlags),
      ∀ m ∈ (transfer db user toA amount d f).db.transactions,
        m ∉ db.transactions → m.reference = none) := by
  constructor
  · intro db user ty amount d toA txT ts rnd f m hm hnot
    exact (createTransaction_new_movement db user ty amount d toA txT ts rnd f
      m hm hnot).2.2.2.2.2
  · intro db user toA amount d f m hm hnot
    exact (transfer_new_movements db user toA amount d f m hm hnot).2.2

/-- C7 witness: the amended theorem evaluated on a concrete deposit (its
row carries the generated reference) and a concrete transfer (its debit
row carries none). -/
theorem C7_movement_references_witness :
    ({ txRow userX "credit" 50 none none "deposit" "T0" "R0" with
        id := 100 } : Movement).reference =
      some (generateReference "deposit" "T0" "R0") ∧
    ({ debitRow userX "RSY" 150 none with id := 100 } : Movement).reference = none := by
  constructor
  · apply C7_movement_references.1 baseDB userX "credit" 50 none none "deposit"
      "T0" "R0" ⟨none, true, true⟩
    · rw [createTransaction_success baseDB userX "credit" 50 none none "deposit"
        "T0" "R0" true userX rfl (Or.inl rfl) (by decide)
        (Or.inr (Or.inr (Or.inl rfl))) (by decide) (by decide)]
      simp [setBalance, insertTx, baseDB]
    · simp [baseDB]
  · apply C7_movement_references.2 baseDB userX "RSY" 150 none allOk
    · rw [transfer_validated baseDB userX userY userX "RSY" 150 none allOk rfl
        (by decide) (by decide) rfl (by decide) (by decide) (by decide),
        show (allOk : TransferFlags) = ⟨true, true, true, true, true, true, true⟩ from rfl,
        transferSaga_success]
      simp [setBalance, insertTx, baseDB]
    · simp [baseDB]

/-! ## C6 -/

/-- C6 counterexample: for the concrete transfer X(500) → Y(200) of 150 via
the account-route `transfer` with every store call succeeding, the sender's
debit movement carries NO reference at all — in particular no reference
beginning with `TRA-` as the claim states. -/
theorem C6_counterexample :
    (transfer baseDB userX "RSY" 150 none allOk).resp =
      .ok { debitRow userX "RSY" 150 none with id := 100 } 350 ∧
    ¬ ∃ r : String,
        ({ debitRow userX "RSY" 150 none with id := 100 } : Movement).reference =
          some r ∧ r.take 4 = "TRA-" := by
  constructor
  · decide
  · simp [debitRow]

/-- C6 amended: `execute_transfer` from X (balance 500) to Y (balance 200)
for amount 150 yields a debit movement of 150 on X carrying no reference, a
credit movement of 150 on Y, final X balance 350 and final Y balance 350. -/
theorem C6_transfer_concrete :
    (transfer baseDB userX "RSY" 150 none allOk).resp =
      .ok { debitRow userX "RSY" 150 none with id := 100 } 350 ∧
    ({ debitRow userX "RSY" 150 none with id := 100 } : Movement).type = "debit" ∧
    ({ debitRow userX "RSY" 150 none with id := 100 } : Movement).amount = 150 ∧
    ({ debitRow userX "RSY" 150 none with id := 100 } : Movement).reference = none ∧
    (transfer baseDB userX "RSY" 150 none allOk).db.transactions =
      [{ debitRow userX "RSY" 150 none with id := 100 },
       { creditRow userY userX 150 none with id := 101 }] ∧
    ({ creditRow userY userX 150 none with id := 101 } : Movement).type = "credit" ∧
    ({ creditRow userY userX 150 none with id := 101 } : Movement).user_id = userY.id ∧
    ({ creditRow userY userX 150 none with id := 101 } : Movement).amount = 150 ∧
    (transfer baseDB userX "RSY" 150 none allOk).db.profiles =
      [{ userX with balance := 350 }, { userY with balance := 350 }, userZ] := by
  refine ⟨by decide, rfl, rfl, rfl, by decide, rfl, rfl, rfl, by decide⟩

/-! ## C10 -/

/-- The (id, active-flag) projection of the profiles table. -/
def idActive (l : List Profile) : List (Nat × Bool) :=
  l.map fun p => (p.id, p.is_active)

lemma mapCongrMem {α β : Type} (l : List α) (f g : α → β)
    (h : ∀ x ∈ l, f x = g x) : l.map f = l.map g := by
  induction l with
  | nil => rfl
  | cons a t ih =>
    simp only [List.map_cons, h a (List.mem_cons_self a t)]
    rw [ih fun x hx => h x (List.mem_cons_of_mem a hx)]

lemma idActive_map_preserve (l : List Profile) (g : Profile → Profile)
    (h : ∀ p, (g p).id = p.id ∧ (g p).is_active = p.is_active) :
    idActive (l.map g) = idActive l := by
  simp only [idActive, List.map_map]
  apply mapCongrMem
  intro p _
  simp [Function.comp, (h p).1, (h p).2]

lemma idActive_createTransaction (db : DB) (user : Profile) (ty : String)
    (amount : Int) (d toA : Option String) (txT ts rnd : String) (f : TxFlags) :
    idActive (createTransaction db user ty amount d toA txT ts rnd f).1.profiles =
      idActive db.profiles := by
  unfold createTransaction
  repeat' split
  all_goals simp only [setBalance, deleteTx, insertTx, List.map_map]
  all_goals
    first
      | rfl
      | (apply idActive_map_preserve
         intro p
         constructor <;>
           (try simp only [Function.comp_apply]
            repeat' split
            all_goals rfl))

lemma idActive_transferSaga (db : DB) (user recipient senderProfile : Profile)
    (toA : String) (amount : Int) (d : Option String) (f : TransferFlags) :
    idActive (transferSaga db user recipient senderProfile toA amount d f).db.profiles =
      idActive db.profiles := by
  unfold transferSaga
  repeat' split
  all_goals simp only [setBalance, deleteTx, insertTx, List.map_map]
  all_goals
    first
      | rfl
      | (apply idActive_map_preserve
         intro p
         constructor <;>
           (try simp only [Function.comp_apply]
            repeat' split
            all_goals rfl))

lemma idActive_transfer (db : DB) (user : Profile) (toA : String)
    (amount : Int) (d : Option String) (f : TransferFlags) :
    idActive (transfer db user toA amount d f).db.profiles = idActive db.profiles := by
  unfold transfer
  repeat' split
  all_goals first
    | rfl
    | exact idActive_transferSaga _ _ _ _ _ _ _ _

/-- C10: every successful signup creates an account with balance exactly
100000.00 and active flag `false`; while the flag is `false` both
money-movement operations are rejected with ACCOUNT_INACTIVE before any
write (store unchanged); neither money-movement operation ever changes any
account's active flag; and the admin activation operation sets the flag of
the targeted account to `true`. -/
theorem C10_signup_inactive_gating :
    (∀ (db : DB) (pid : Nat) (name email acct : String) (p : Profile),
      (signup db pid name email acct).2 = some p →
      p.balance = 100000 ∧ p.is_active = false) ∧
    (∀ (db : DB) (user : Profile) (ty : String) (amount : Int)
       (d toA : Option String) (txT ts rnd : String) (f : TxFlags),
      user.is_active = false →
      createTransaction db user ty amount d toA txT ts rnd f =
        (db, .err 403 "ACCOUNT_INACTIVE"
          "Account is not active. Please wait for activation to perform transactions.")) ∧
    (∀ (db : DB) (user : Profile) (toA : String) (amount : Int)
       (d : Option String) (f : TransferFlags),
      user.is_active = false →
      transfer db user toA amount d f =
        ⟨db, .err 403 "ACCOUNT_INACTIVE"
          "Account is not active. Please wait for activation to perform transfers.", []⟩) ∧
    (∀ (db : DB) (op : Op),
      idActive (runOp db op).profiles = idActive db.profiles) ∧
    (∀ (db : DB) (uid : Nat), ∀ p ∈ (activateAccount db uid).profiles,
      p.id = uid → p.is_active = true) := by
  refine ⟨?_, ?_, ?_, ?_, ?_⟩
  · intro db pid name email acct p hp
    unfold signup at hp
    cases hfind : db.profiles.find? (fun q => q.email = email) with
    | some q =>
      rw [hfind] at hp
      cases hp
    | none =>
      rw [hfind] at hp
      rcases Option.some.inj hp with rfl
      exact ⟨rfl, rfl⟩
  · intro db user ty amount d toA txT ts rnd f h
    exact createTransaction_inactive db user ty amount d toA txT ts rnd f h
  · intro db user toA amount d f h
    exact transfer_inactive db user toA amount d f h
  · intro db op
    cases op with
    | movement uid ty amount dd toA txT ts rnd f =>
      simp only [runOp]
      cases hfind : db.profiles.find? (fun p => p.id = uid) with
      | none => rfl
      | some user => exact idActive_createTransaction db user ty amount dd toA txT ts rnd f
    | xfer uid toA amount dd f =>
      simp only [runOp]
      cases hfind : db.profiles.find? (fun p => p.id = uid) with
      | none => rfl
      | some user => exact idActive_transfer db user toA amount dd f
  · intro db uid p hp hid
    unfold activateAccount at hp
    rcases List.mem_map.mp hp with ⟨q, hq, rfl⟩
    by_cases hc : q.id = uid
    · simp [hc]
    · rw [if_neg hc] at hid ⊢
      exact absurd hid hc

/-- C10 witness: a concrete signup yields balance 100000 and an inactive
flag; the inactive account Z is rejected by both operations with the store
unchanged; activation flips Z's flag. -/
theorem C10_signup_inactive_gating_witness :
    (({ id := 7, name := "N", email := "n@example.com", account_number := "RS7",
        balance := 100000, is_active := false } : Profile).balance = 100000 ∧
     ({ id := 7, name := "N", email := "n@example.com", account_number := "RS7",
        balance := 100000, is_active := false } : Profile).is_active = false) ∧
    createTransaction baseDB userZ "credit" 50 none none "deposit" "T0" "R0"
        ⟨none, true, true⟩ =
      (baseDB, .err 403 "ACCOUNT_INACTIVE"
        "Account is not active. Please wait for activation to perform transactions.") ∧
    transfer baseDB userZ "RSY" 50 none allOk =
      ⟨baseDB, .err 403 "ACCOUNT_INACTIVE"
        "Account is not active. Please wait for activation to perform transfers.", []⟩ ∧
    (∀ p ∈ (activateAccount baseDB 3).profiles, p.id = 3 → p.is_active = true) :=
  ⟨C10_signup_inactive_gating.1 { profiles := [], transactions := [], nextId := 0 }
      7 "N" "n@example.com" "RS7" _ rfl,
   C10_signup_inactive_gating.2.1 baseDB userZ "credit" 50 none none "deposit"
      "T0" "R0" ⟨none, true, true⟩ rfl,
   C10_signup_inactive_gating.2.2.1 baseDB userZ "RSY" 50 none allOk rfl,
   fun p hp hid => C10_signup_inactive_gating.2.2.2.2 baseDB 3 p hp hid⟩
